import Mathlib

/-!
# fr0g-ai-bridge: request validation, persona merge and protocol adapters

A shallow embedding of the request pipeline of the gateway
(`internal/models/types.go`, `internal/api/rest.go`, `internal/api/grpc.go`,
`internal/client/openwebui.go`) together with the properties proved about it.

Go strings are Lean strings, a Go `error` is an `Option String` holding the
text of `err.Error()` (`none` is `nil`), a nullable pointer to a scalar is an
`Option`, and a slice is a list of its elements (the value view) or a header
into a heap of backing arrays (the memory view, used where aliasing matters).
-/

/-! ## Data model (`internal/models/types.go`) -/

namespace models

/-- ChatMessage: a single message of a conversation. -/
structure ChatMessage where
  Role : String
  Content : String
deriving DecidableEq, Repr

/-- ChatCompletionRequest: the canonical request. `Temperature` is a `*float64`;
the code only tests it for nil and copies it, so the pointee is carried as its
64-bit pattern. `MaxTokens` is a `*int`, `Stream` a `*bool`. -/
structure ChatCompletionRequest where
  Model : String
  Messages : List ChatMessage
  Temperature : Option Nat
  MaxTokens : Option Int
  Stream : Option Bool
  PersonaPrompt : String
deriving DecidableEq, Repr

/-- Choice: one response choice (`Index` is a Go `int`). -/
structure Choice where
  Index : Int
  Message : ChatMessage
  FinishReason : String
deriving DecidableEq, Repr

/-- Usage: token usage statistics (Go `int` fields). -/
structure Usage where
  PromptTokens : Int
  CompletionTokens : Int
  TotalTokens : Int
deriving DecidableEq, Repr

/-- ChatCompletionResponse: the canonical response (`Created` is an `int64`). -/
structure ChatCompletionResponse where
  ID : String
  Object : String
  Created : Int
  Model : String
  Choices : List Choice
  Usage : Usage
deriving DecidableEq, Repr

/-- HealthResponse: body of the health endpoint; `Time` is the clock reading
taken by the handler, carried as a number. -/
structure HealthResponse where
  Status : String
  Version : String
  Time : Nat
deriving DecidableEq, Repr

/-- ErrorResponse: the error envelope. -/
structure ErrorResponse where
  Error : String
  Message : String
  Code : Nat
deriving DecidableEq, Repr

end models

/-! ## Protocol-native messages (`internal/pb`, generated code) -/

namespace pb

/-- Modelled from the spec: the generated type `pb.ChatMessage` is not among the
sources; it is the wire form of a chat message, with the two string fields that
`grpc.go` reads (`Role`, `Content`). -/
structure ChatMessage where
  Role : String
  Content : String
deriving DecidableEq, Repr

/-- Modelled from the spec: the generated type `pb.ChatCompletionRequest` is not
among the sources; its fields are the ones `grpc.go` and `grpc_test.go` read:
`Model`, `Messages`, the optional `Temperature` (`*float64`, as a bit pattern),
`MaxTokens` (`*int32`), `Stream` (`*bool`) and `PersonaPrompt`. `Messages` is a
`[]*pb.ChatMessage` whose elements, decoded from the wire, are never nil; they
are carried as the structs they point to. -/
structure ChatCompletionRequest where
  Model : String
  Messages : List ChatMessage
  Temperature : Option Nat
  MaxTokens : Option Int
  Stream : Option Bool
  PersonaPrompt : String
deriving DecidableEq, Repr

end pb

/-! ## Validation (`rest.go` 108-124, `grpc.go` 67-83) -/

namespace RESTServer

/-- The `for i, msg := range req.Messages` loop of
`RESTServer.validateChatCompletionRequest`, entered at index `i` with the
messages from `i` on still to visit. -/
def validateMessages : Nat → List models.ChatMessage → Option String
  | _, [] => none
  | i, msg :: rest =>
    if msg.Role = "" then
      some ("message " ++ toString i ++ ": role is required")
    else if msg.Content = "" then
      some ("message " ++ toString i ++ ": content is required")
    else
      validateMessages (i + 1) rest

/-- RESTServer.validateChatCompletionRequest: `none` is a nil error, `some t`
an error whose text is `t`. -/
def validateChatCompletionRequest (req : models.ChatCompletionRequest) : Option String :=
  if req.Model = "" then
    some "model is required"
  else if req.Messages.length = 0 then
    some "messages are required"
  else
    validateMessages 0 req.Messages

end RESTServer

namespace GRPCServer

/-- The `for i, msg := range req.Messages` loop of
`GRPCServer.validateChatCompletionRequest`. -/
def validateMessages : Nat → List pb.ChatMessage → Option String
  | _, [] => none
  | i, msg :: rest =>
    if msg.Role = "" then
      some ("message " ++ toString i ++ ": role is required")
    else if msg.Content = "" then
      some ("message " ++ toString i ++ ": content is required")
    else
      validateMessages (i + 1) rest

/-- GRPCServer.validateChatCompletionRequest, over the protocol-native request. -/
def validateChatCompletionRequest (req : pb.ChatCompletionRequest) : Option String :=
  if req.Model = "" then
    some "model is required"
  else if req.Messages.length = 0 then
    some "messages are required"
  else
    validateMessages 0 req.Messages

end GRPCServer

/-! ## Persona merge (`openwebui.go` 84-116), value view -/

namespace OpenWebUIClient

/-- The `for i, msg := range openWebUIReq.Messages` loop of
`prepareOpenWebUIRequest`: it stops at the first message whose role is
`"system"`, stores `PersonaPrompt + "\n\n" + msg.Content` in the `Content` of
that element and sets `hasSystemMessage`. The result is the message sequence
after the loop and the final `hasSystemMessage`. -/
def mergeSystemMessage (personaPrompt : String) :
    List models.ChatMessage → List models.ChatMessage × Bool
  | [] => ([], false)
  | msg :: rest =>
    if msg.Role = "system" then
      ({ msg with Content := personaPrompt ++ "\n\n" ++ msg.Content } :: rest, true)
    else
      ((msg :: (mergeSystemMessage personaPrompt rest).1),
        (mergeSystemMessage personaPrompt rest).2)

/-- OpenWebUIClient.prepareOpenWebUIRequest: the request it returns, as a value. -/
def prepareOpenWebUIRequest (req : models.ChatCompletionRequest) :
    models.ChatCompletionRequest :=
  let openWebUIReq := req
  let openWebUIReq :=
    if req.PersonaPrompt ≠ "" then
      let systemMessage : models.ChatMessage :=
        { Role := "system", Content := req.PersonaPrompt }
      let scanned := mergeSystemMessage req.PersonaPrompt openWebUIReq.Messages
      let openWebUIReq := { openWebUIReq with Messages := scanned.1 }
      if !scanned.2 then
        { openWebUIReq with Messages := [systemMessage] ++ openWebUIReq.Messages }
      else
        openWebUIReq
    else
      openWebUIReq
  { openWebUIReq with PersonaPrompt := "" }

end OpenWebUIClient

/-! ## Persona merge, memory view

`openWebUIReq := *req` copies the request struct, and with it the slice header
of `Messages`, not the backing array: the copy and the caller's request index
the same array until `append` gives the copy a fresh one. -/

namespace mem

/-- The heap of backing arrays of message slices; an address is a position. -/
abbrev Heap := List (List models.ChatMessage)

/-- A Go slice header: backing array, offset of the first element, length. -/
structure Slice where
  arr : Nat
  off : Nat
  len : Nat
deriving DecidableEq, Repr

/-- The request struct as laid out in memory: `Messages` is a slice header. -/
structure ChatCompletionRequest where
  Model : String
  Messages : Slice
  Temperature : Option Nat
  MaxTokens : Option Int
  Stream : Option Bool
  PersonaPrompt : String
deriving DecidableEq, Repr

/-- The elements a slice denotes in a heap. -/
def Slice.read (h : Heap) (s : Slice) : List models.ChatMessage :=
  ((h.getD s.arr []).drop s.off).take s.len

/-- Element `s[i]`, when `i` is within the slice. -/
def Slice.index (h : Heap) (s : Slice) (i : Nat) : Option models.ChatMessage :=
  if i < s.len then (h.getD s.arr [])[s.off + i]? else none

/-- The heap after the assignment `s[i].Content = c`. -/
def Slice.storeContent (h : Heap) (s : Slice) (i : Nat) (c : String) : Heap :=
  h.modify (fun a => a.modify (fun m => { m with Content := c }) (s.off + i)) s.arr

/-- A slice lies within its backing array. -/
def Slice.valid (h : Heap) (s : Slice) : Prop :=
  s.arr < h.length ∧ s.off + s.len ≤ (h.getD s.arr []).length

instance (h : Heap) (s : Slice) : Decidable (s.valid h) := by
  unfold Slice.valid; infer_instance

/-- The request a struct denotes in a heap. -/
def ChatCompletionRequest.view (h : Heap) (r : ChatCompletionRequest) :
    models.ChatCompletionRequest :=
  { Model := r.Model, Messages := r.Messages.read h, Temperature := r.Temperature,
    MaxTokens := r.MaxTokens, Stream := r.Stream, PersonaPrompt := r.PersonaPrompt }

/-- The loop of `prepareOpenWebUIRequest` on the heap: `n` iterations remain and
the next index is `i`. It returns the heap after the loop and
`hasSystemMessage`. -/
def mergeSystemMessage (personaPrompt : String) (s : Slice) :
    Nat → Nat → Heap → Heap × Bool
  | 0, _, h => (h, false)
  | n + 1, i, h =>
    match s.index h i with
    | none => (h, false)
    | some msg =>
      if msg.Role = "system" then
        (s.storeContent h i (personaPrompt ++ "\n\n" ++ msg.Content), true)
      else
        mergeSystemMessage personaPrompt s n (i + 1) h

/-- OpenWebUIClient.prepareOpenWebUIRequest on the heap. `req` is the struct the
caller's pointer designates (the function only reads it); the result is the
heap after the call and the struct the returned pointer designates.
`append([]models.ChatMessage{systemMessage}, ...)` fills a fresh array. -/
def prepareOpenWebUIRequest (h : Heap) (req : ChatCompletionRequest) :
    Heap × ChatCompletionRequest :=
  let openWebUIReq := req
  if req.PersonaPrompt ≠ "" then
    let systemMessage : models.ChatMessage :=
      { Role := "system", Content := req.PersonaPrompt }
    let scanned :=
      mergeSystemMessage req.PersonaPrompt openWebUIReq.Messages
        openWebUIReq.Messages.len 0 h
    if !scanned.2 then
      let fresh := [systemMessage] ++ openWebUIReq.Messages.read scanned.1
      (scanned.1 ++ [fresh],
        { openWebUIReq with
          Messages := { arr := scanned.1.length, off := 0, len := fresh.length },
          PersonaPrompt := "" })
    else
      (scanned.1, { openWebUIReq with PersonaPrompt := "" })
  else
    (h, { openWebUIReq with PersonaPrompt := "" })

end mem

/-! ## Protocol-native responses and conversions (`grpc.go` 86-146) -/

namespace pb

/-- Modelled from the spec: the generated type `pb.Choice` is not among the
sources; `grpc.go` fills `Index` (an `int32`), `Message` and `FinishReason`. -/
structure Choice where
  Index : Int
  Message : ChatMessage
  FinishReason : String
deriving DecidableEq, Repr

/-- Modelled from the spec: the generated type `pb.Usage` is not among the
sources; `grpc.go` fills three `int32` counters. -/
structure Usage where
  PromptTokens : Int
  CompletionTokens : Int
  TotalTokens : Int
deriving DecidableEq, Repr

/-- Modelled from the spec: the generated type `pb.ChatCompletionResponse` is not
among the sources; `grpc.go` fills `Id`, `Object`, `Created` (an `int64`),
`Model`, `Choices` and `Usage`. -/
structure ChatCompletionResponse where
  Id : String
  Object : String
  Created : Int
  Model : String
  Choices : List Choice
  Usage : Usage
deriving DecidableEq, Repr

end pb

/-- The Go conversion `int32(x)` of an `int`: the low 32 bits, read as a signed
number. -/
def int32 (x : Int) : Int :=
  (x + 2147483648) % 4294967296 - 2147483648

namespace GRPCServer

/-- GRPCServer.protoToModel: the canonical request of a protocol-native one.
`int(*req.MaxTokens)` widens an `int32` and keeps its value. -/
def protoToModel (req : pb.ChatCompletionRequest) : models.ChatCompletionRequest :=
  { Model := req.Model,
    PersonaPrompt := req.PersonaPrompt,
    Messages := req.Messages.map
      (fun msg => ({ Role := msg.Role, Content := msg.Content } : models.ChatMessage)),
    Temperature := match req.Temperature with
      | some temp => some temp
      | none => none,
    MaxTokens := match req.MaxTokens with
      | some maxTokens => some maxTokens
      | none => none,
    Stream := match req.Stream with
      | some stream => some stream
      | none => none }

/-- GRPCServer.modelToProto: the protocol-native response of a canonical one. -/
def modelToProto (resp : models.ChatCompletionResponse) : pb.ChatCompletionResponse :=
  { Id := resp.ID,
    Object := resp.Object,
    Created := resp.Created,
    Model := resp.Model,
    Usage :=
      { PromptTokens := int32 resp.Usage.PromptTokens,
        CompletionTokens := int32 resp.Usage.CompletionTokens,
        TotalTokens := int32 resp.Usage.TotalTokens },
    Choices := resp.Choices.map
      (fun choice =>
        ({ Index := int32 choice.Index,
           Message := { Role := choice.Message.Role, Content := choice.Message.Content },
           FinishReason := choice.FinishReason } : pb.Choice)) }

end GRPCServer

/-! ## The upstream client as seen by the servers, and the response writer -/

/-- The two methods of `*client.OpenWebUIClient` that the servers call, as
functions of their argument. `ChatCompletion` answers with an error text (and a
nil response) or with a response (and a nil error); `HealthCheck` is the error
of the probe, `none` when it is nil. -/
structure Client where
  ChatCompletion : models.ChatCompletionRequest → Except String models.ChatCompletionResponse
  HealthCheck : Option String

/-- The value handed to `json.NewEncoder(w).Encode`. -/
inductive Payload where
  | health (r : models.HealthResponse)
  | chat (r : models.ChatCompletionResponse)
  | error (r : models.ErrorResponse)
deriving DecidableEq, Repr

/-- The state of an `http.ResponseWriter`: the header map the handler edits,
whether the status line has been written, the status code and the headers sent
with it, and the values encoded into the body so far. -/
structure ResponseWriter where
  header : List (String × String)
  wroteHeader : Bool
  statusCode : Nat
  sentHeader : List (String × String)
  body : List Payload
deriving DecidableEq, Repr

namespace ResponseWriter

/-- The call `w.Header().Set(key, value)`. -/
def setHeader (w : ResponseWriter) (key value : String) : ResponseWriter :=
  { w with header := (w.header.filter (fun kv => kv.1 ≠ key)) ++ [(key, value)] }

/-- The call `w.WriteHeader(code)`: the first call fixes the status code and the
headers that are sent; a later call changes nothing. -/
def writeHeader (w : ResponseWriter) (code : Nat) : ResponseWriter :=
  if w.wroteHeader then w
  else { w with wroteHeader := true, statusCode := code, sentHeader := w.header }

/-- The call `json.NewEncoder(w).Encode(v)`: a write, which first sends status
200 when no status line has been written. -/
def encode (w : ResponseWriter) (v : Payload) : ResponseWriter :=
  let w := w.writeHeader 200
  { w with body := w.body ++ [v] }

end ResponseWriter

/-! ## Handlers (`rest.go` 77-105 and 127-142, `grpc.go` 45-64) -/

namespace RESTServer

/-- RESTServer.writeError (the `log.Printf` line writes to the log only). -/
def writeError (w : ResponseWriter) (statusCode : Nat) (message : String)
    (err : Option String) : ResponseWriter :=
  let errorResp : models.ErrorResponse :=
    { Error := message, Message := "", Code := statusCode }
  let errorResp :=
    match err with
    | some e => { errorResp with Message := e }
    | none => errorResp
  let w := w.setHeader "Content-Type" "application/json"
  let w := w.writeHeader statusCode
  w.encode (Payload.error errorResp)

/-- RESTServer.handleChatCompletion. `body` is the outcome of decoding the
request body; the result is the writer after the handler and the requests with
which `s.client.ChatCompletion` was called, in order. -/
def handleChatCompletion (client : Client) (w : ResponseWriter)
    (body : Except String models.ChatCompletionRequest) :
    ResponseWriter × List models.ChatCompletionRequest :=
  match body with
  | .error err => (writeError w 400 "Invalid request body" (some err), [])
  | .ok req =>
    match validateChatCompletionRequest req with
    | some err => (writeError w 400 "Invalid request" (some err), [])
    | none =>
      match client.ChatCompletion req with
      | .error err =>
        (writeError w 500 "Failed to process chat completion" (some err), [req])
      | .ok resp =>
        let w := w.setHeader "Content-Type" "application/json"
        let w := w.writeHeader 200
        (w.encode (Payload.chat resp), [req])

end RESTServer

namespace GRPCServer

/-- GRPCServer.ChatCompletion. The result is the returned response (`none` is
nil), the returned error, and the requests with which
`s.client.ChatCompletion` was called, in order. -/
def ChatCompletion (client : Client) (req : pb.ChatCompletionRequest) :
    Option pb.ChatCompletionResponse × Option String × List models.ChatCompletionRequest :=
  match validateChatCompletionRequest req with
  | some err => (none, some ("invalid request: " ++ err), [])
  | none =>
    let modelReq := protoToModel req
    match client.ChatCompletion modelReq with
    | .error err => (none, some ("failed to process chat completion: " ++ err), [modelReq])
    | .ok resp =>
      let protoResp := modelToProto resp
      (some protoResp, none, [modelReq])

end GRPCServer

/-! ## Health endpoints (`rest.go` 51-74, `grpc.go` 26-42) -/

namespace pb

/-- Modelled from the spec: the generated type `pb.HealthCheckResponse` is not
among the sources; `grpc.go` fills its `Status` and `Version`. -/
structure HealthCheckResponse where
  Status : String
  Version : String
deriving DecidableEq, Repr

end pb

namespace RESTServer

/-- RESTServer.handleHealth. `now` is the reading of `time.Now()`. The status
line is written inside the branches, the `Content-Type` header is set after
them, as in the source. -/
def handleHealth (client : Client) (w : ResponseWriter) (now : Nat) : ResponseWriter :=
  let err := client.HealthCheck
  let response : models.HealthResponse :=
    { Status := "", Version := "1.0.0", Time := now }
  match err with
  | some _ =>
    let response := { response with Status := "unhealthy" }
    let w := w.writeHeader 503
    let w := w.setHeader "Content-Type" "application/json"
    w.encode (Payload.health response)
  | none =>
    let response := { response with Status := "healthy" }
    let w := w.writeHeader 200
    let w := w.setHeader "Content-Type" "application/json"
    w.encode (Payload.health response)

end RESTServer

namespace GRPCServer

/-- GRPCServer.HealthCheck: the returned response (`none` is nil) and the
returned error. -/
def HealthCheck (client : Client) : Option pb.HealthCheckResponse × Option String :=
  let err := client.HealthCheck
  let response : pb.HealthCheckResponse := { Status := "", Version := "1.0.0" }
  let response :=
    match err with
    | some _ => { response with Status := "unhealthy" }
    | none => { response with Status := "healthy" }
  (some response, none)

end GRPCServer

/-! ## The upstream client (`openwebui.go` 34-81) -/

/-- OpenWebUIClient: the fields its methods read. The `httpClient` is
represented by what it does with a request, see `HTTP`. -/
structure OpenWebUIClient where
  baseURL : String
  apiKey : String
deriving DecidableEq, Repr

/-- An outgoing HTTP request. The body is a JSON document, carried as the
request value it encodes. -/
structure HTTPRequest where
  method : String
  url : String
  header : List (String × String)
  body : models.ChatCompletionRequest
deriving DecidableEq, Repr

/-- The outcome of `c.httpClient.Do(httpReq)` followed by `io.ReadAll(resp.Body)`:
sending failed, reading the body failed, or a status code and a body arrived. -/
inductive Exchange where
  | sendError (err : String)
  | readError (statusCode : Nat) (err : String)
  | received (statusCode : Nat) (body : String)
deriving DecidableEq, Repr

/-- The HTTP layer and the JSON decoder as inputs of a call: the error of
`http.NewRequestWithContext` for a URL (`none` when the request is created), the
outcome of the round trip for a request, and the result of `json.Unmarshal` of
a body into the response shape. -/
structure HTTP where
  newRequestError : String → Option String
  roundTrip : HTTPRequest → Exchange
  unmarshal : String → Except String models.ChatCompletionResponse

/-- The exponent bits of a `float64` pattern are all ones: the value is a NaN or
an infinity. -/
def float64IsNaNOrInf (bits : Nat) : Bool :=
  (bits / 4503599627370496) % 2048 = 2047

/-- The text `strconv.FormatFloat` gives for a NaN or an infinity. -/
def formatNaNOrInf (bits : Nat) : String :=
  if bits % 4503599627370496 ≠ 0 then "NaN"
  else if (bits / 9223372036854775808) % 2 = 1 then "-Inf"
  else "+Inf"

/-- The call `json.Marshal(openWebUIReq)`: every field of the request has a JSON
form except a temperature that is a NaN or an infinity, for which the encoder
returns an `UnsupportedValueError`. The document is carried as the value. -/
def jsonMarshal (req : models.ChatCompletionRequest) :
    Except String models.ChatCompletionRequest :=
  match req.Temperature with
  | some bits =>
    if float64IsNaNOrInf bits then
      .error ("json: unsupported value: " ++ formatNaNOrInf bits)
    else .ok req
  | none => .ok req

namespace OpenWebUIClient

/-- The HTTP request that `ChatCompletion` builds around a marshalled body. -/
def chatRequest (c : OpenWebUIClient) (reqBody : models.ChatCompletionRequest) :
    HTTPRequest :=
  let header := [("Content-Type", "application/json")]
  let header :=
    if c.apiKey ≠ "" then header ++ [("Authorization", "Bearer " ++ c.apiKey)]
    else header
  { method := "POST", url := c.baseURL ++ "/api/chat/completions",
    header := header, body := reqBody }

/-- OpenWebUIClient.ChatCompletion: the returned response (`none` is nil) and the
returned error (`none` is nil). -/
def ChatCompletion (c : OpenWebUIClient) (env : HTTP)
    (req : models.ChatCompletionRequest) :
    Option models.ChatCompletionResponse × Option String :=
  let openWebUIReq := prepareOpenWebUIRequest req
  match jsonMarshal openWebUIReq with
  | .error err => (none, some ("failed to marshal request: " ++ err))
  | .ok reqBody =>
    match env.newRequestError (c.baseURL ++ "/api/chat/completions") with
    | some err => (none, some ("failed to create HTTP request: " ++ err))
    | none =>
      match env.roundTrip (c.chatRequest reqBody) with
      | .sendError err => (none, some ("failed to send request: " ++ err))
      | .readError _ err => (none, some ("failed to read response body: " ++ err))
      | .received statusCode respBody =>
        if statusCode ≠ 200 then
          (none, some ("OpenWebUI API returned status " ++ toString statusCode ++ ": "
            ++ respBody))
        else
          match env.unmarshal respBody with
          | .error err => (none, some ("failed to unmarshal response: " ++ err))
          | .ok chatResp => (some chatResp, none)

end OpenWebUIClient

/-! ## Configuration (`internal/config/config.go`) -/

namespace config

/-- ServerConfig: server-related configuration (the ports are Go `int`s). -/
structure ServerConfig where
  HTTPPort : Int
  GRPCPort : Int
  Host : String
deriving DecidableEq, Repr

/-- OpenWebUIConfig: upstream configuration (`Timeout` in seconds). -/
structure OpenWebUIConfig where
  BaseURL : String
  APIKey : String
  Timeout : Int
deriving DecidableEq, Repr

/-- LoggingConfig: logging configuration. -/
structure LoggingConfig where
  Level : String
  Format : String
deriving DecidableEq, Repr

/-- Config: the application configuration. -/
structure Config where
  Server : ServerConfig
  OpenWebUI : OpenWebUIConfig
  Logging : LoggingConfig
deriving DecidableEq, Repr

/-- The operating system and the two library parsers as inputs of `LoadConfig`:
the error of `os.Stat` for a path (`none` when the file is there), the outcome
of `os.ReadFile`, the value of `os.Getenv` for a name (empty when unset), the
outcome of `yaml.Unmarshal` of the file's bytes into a configuration that
already holds values, and the outcome of `strconv.Atoi` (`none` on an error). -/
structure Machine where
  statError : String → Option String
  readFile : String → Except String String
  getenv : String → String
  yamlUnmarshal : String → Config → Except String Config
  atoi : String → Option Int

/-- The configuration `LoadConfig` starts from. -/
def defaults : Config :=
  { Server := { HTTPPort := 8080, GRPCPort := 9090, Host := "0.0.0.0" },
    OpenWebUI := { BaseURL := "http://localhost:3000", APIKey := "", Timeout := 30 },
    Logging := { Level := "info", Format := "json" } }

/-- The part of `LoadConfig` after the file: the overrides from the environment
variables, in the order of the source. -/
def applyEnvironment (sys : Machine) (config : Config) : Config :=
  let config :=
    if sys.getenv "HTTP_PORT" ≠ "" then
      match sys.atoi (sys.getenv "HTTP_PORT") with
      | some p => { config with Server := { config.Server with HTTPPort := p } }
      | none => config
    else config
  let config :=
    if sys.getenv "GRPC_PORT" ≠ "" then
      match sys.atoi (sys.getenv "GRPC_PORT") with
      | some p => { config with Server := { config.Server with GRPCPort := p } }
      | none => config
    else config
  let config :=
    if sys.getenv "HOST" ≠ "" then
      { config with Server := { config.Server with Host := sys.getenv "HOST" } }
    else config
  let config :=
    if sys.getenv "OPENWEBUI_BASE_URL" ≠ "" then
      { config with
        OpenWebUI := { config.OpenWebUI with BaseURL := sys.getenv "OPENWEBUI_BASE_URL" } }
    else config
  let config :=
    if sys.getenv "OPENWEBUI_API_KEY" ≠ "" then
      { config with
        OpenWebUI := { config.OpenWebUI with APIKey := sys.getenv "OPENWEBUI_API_KEY" } }
    else config
  let config :=
    if sys.getenv "OPENWEBUI_TIMEOUT" ≠ "" then
      match sys.atoi (sys.getenv "OPENWEBUI_TIMEOUT") with
      | some t => { config with OpenWebUI := { config.OpenWebUI with Timeout := t } }
      | none => config
    else config
  let config :=
    if sys.getenv "LOG_LEVEL" ≠ "" then
      { config with Logging := { config.Logging with Level := sys.getenv "LOG_LEVEL" } }
    else config
  config

/-- LoadConfig: the returned configuration (`none` is nil) and the returned
error (`none` is nil). The file is read only when `configPath` is not empty and
`os.Stat` returns no error for it. -/
def LoadConfig (sys : Machine) (configPath : String) : Option Config × Option String :=
  let config := defaults
  if configPath ≠ "" then
    match sys.statError configPath with
    | none =>
      match sys.readFile configPath with
      | .error err => (none, some ("failed to read config file: " ++ err))
      | .ok data =>
        match sys.yamlUnmarshal data config with
        | .error err => (none, some ("failed to parse config file: " ++ err))
        | .ok config => (some (applyEnvironment sys config), none)
    | some _ => (some (applyEnvironment sys config), none)
  else
    (some (applyEnvironment sys config), none)

end config

/-! ## Properties of validation -/

/-- The gRPC validator is the REST validator after conversion. -/
theorem GRPCServer.validateMessages_eq (i : Nat) (ms : List pb.ChatMessage) :
    GRPCServer.validateMessages i ms =
      RESTServer.validateMessages i
        (ms.map (fun msg => ({ Role := msg.Role, Content := msg.Content } : models.ChatMessage))) := by
  induction ms generalizing i with
  | nil => rfl
  | cons m rest ih =>
    simp only [GRPCServer.validateMessages, RESTServer.validateMessages, List.map_cons]
    rw [ih]

/-- The gRPC validator is the REST validator after `protoToModel`. -/
theorem GRPCServer.validate_eq_rest (req : pb.ChatCompletionRequest) :
    GRPCServer.validateChatCompletionRequest req =
      RESTServer.validateChatCompletionRequest (GRPCServer.protoToModel req) := by
  simp only [GRPCServer.validateChatCompletionRequest, RESTServer.validateChatCompletionRequest,
    GRPCServer.protoToModel, List.length_map]
  rw [GRPCServer.validateMessages_eq]

/-- The loop finds nothing exactly when no message has an empty field. -/
theorem RESTServer.validateMessages_eq_none (i : Nat) (ms : List models.ChatMessage) :
    RESTServer.validateMessages i ms = none ↔
      ∀ m ∈ ms, m.Role ≠ "" ∧ m.Content ≠ "" := by
  induction ms generalizing i with
  | nil => simp [RESTServer.validateMessages]
  | cons m rest ih =>
    simp only [RESTServer.validateMessages, List.mem_cons, forall_eq_or_imp]
    by_cases hr : m.Role = ""
    · simp [hr]
    · by_cases hc : m.Content = ""
      · simp [hr, hc]
      · simp [hr, hc, ih]

/-- The REST validator accepts exactly the requests with a model, a message and
no empty field. -/
theorem RESTServer.validate_eq_none (req : models.ChatCompletionRequest) :
    RESTServer.validateChatCompletionRequest req = none ↔
      req.Model ≠ "" ∧ req.Messages ≠ [] ∧
        ∀ m ∈ req.Messages, m.Role ≠ "" ∧ m.Content ≠ "" := by
  unfold RESTServer.validateChatCompletionRequest
  by_cases hm : req.Model = ""
  · simp [hm]
  · by_cases hl : req.Messages = []
    · simp [hm, hl]
    · have hlen : req.Messages.length ≠ 0 := by
        simpa [List.length_eq_zero] using hl
      simp [hm, hl, hlen, RESTServer.validateMessages_eq_none]

/-- The loop reports the first message with an empty field, and its role first. -/
theorem RESTServer.validateMessages_first (start : Nat) (ms : List models.ChatMessage)
    (hbad : ∃ m ∈ ms, m.Role = "" ∨ m.Content = "") :
    ∃ i m, ms[i]? = some m ∧ (m.Role = "" ∨ m.Content = "") ∧
      (∀ j m', j < i → ms[j]? = some m' → m'.Role ≠ "" ∧ m'.Content ≠ "") ∧
      RESTServer.validateMessages start ms =
        some (if m.Role = "" then "message " ++ toString (start + i) ++ ": role is required"
          else "message " ++ toString (start + i) ++ ": content is required") := by
  induction ms generalizing start with
  | nil => simp at hbad
  | cons a rest ih =>
    by_cases ha : a.Role = "" ∨ a.Content = ""
    · refine ⟨0, a, by simp, ha, ?_, ?_⟩
      · intro j m' hj; omega
      · by_cases hr : a.Role = ""
        · simp [RESTServer.validateMessages, hr]
        · have hc : a.Content = "" := by tauto
          simp [RESTServer.validateMessages, hr, hc]
    · have hrest : ∃ m ∈ rest, m.Role = "" ∨ m.Content = "" := by
        obtain ⟨m, hm, hb⟩ := hbad
        rcases List.mem_cons.mp hm with h | h
        · subst h; exact absurd hb ha
        · exact ⟨m, h, hb⟩
      obtain ⟨i, m, hget, hb, hbefore, hres⟩ := ih (start + 1) hrest
      have ha' : a.Role ≠ "" ∧ a.Content ≠ "" := by tauto
      refine ⟨i + 1, m, by simpa using hget, hb, ?_, ?_⟩
      · intro j m' hj hjget
        cases j with
        | zero =>
          simp at hjget
          subst hjget; exact ha'
        | succ k =>
          exact hbefore k m' (by omega) (by simpa using hjget)
      · have e : start + (i + 1) = start + 1 + i := by omega
        simp only [RESTServer.validateMessages, ha'.1, ha'.2, if_false, e]
        exact hres

/-- C1: on both surfaces validateChatCompletionRequest returns an error exactly
when the model is empty, or there is no message, or some message has an empty
role or an empty content; on every other request it returns nil. -/
theorem validate_error_iff (req : models.ChatCompletionRequest)
    (preq : pb.ChatCompletionRequest) :
    (RESTServer.validateChatCompletionRequest req ≠ none ↔
      (req.Model = "" ∨ req.Messages = [] ∨
        ∃ m ∈ req.Messages, m.Role = "" ∨ m.Content = "")) ∧
    (¬ (req.Model = "" ∨ req.Messages = [] ∨
        ∃ m ∈ req.Messages, m.Role = "" ∨ m.Content = "") →
      RESTServer.validateChatCompletionRequest req = none) ∧
    (GRPCServer.validateChatCompletionRequest preq ≠ none ↔
      (preq.Model = "" ∨ preq.Messages = [] ∨
        ∃ m ∈ preq.Messages, m.Role = "" ∨ m.Content = "")) ∧
    (¬ (preq.Model = "" ∨ preq.Messages = [] ∨
        ∃ m ∈ preq.Messages, m.Role = "" ∨ m.Content = "") →
      GRPCServer.validateChatCompletionRequest preq = none) := by
  have key : ∀ r : models.ChatCompletionRequest,
      RESTServer.validateChatCompletionRequest r = none ↔
        ¬ (r.Model = "" ∨ r.Messages = [] ∨
          ∃ m ∈ r.Messages, m.Role = "" ∨ m.Content = "") := by
    intro r
    rw [RESTServer.validate_eq_none]
    constructor
    · rintro ⟨h1, h2, h3⟩ (h | h | ⟨m, hm, hb⟩)
      · exact h1 h
      · exact h2 h
      · have := h3 m hm
        tauto
    · intro h
      refine ⟨fun e => h (Or.inl e), fun e => h (Or.inr (Or.inl e)), fun m hm => ?_⟩
      constructor
      · intro e; exact h (Or.inr (Or.inr ⟨m, hm, Or.inl e⟩))
      · intro e; exact h (Or.inr (Or.inr ⟨m, hm, Or.inr e⟩))
  have pkey : ∀ r : pb.ChatCompletionRequest,
      GRPCServer.validateChatCompletionRequest r = none ↔
        ¬ (r.Model = "" ∨ r.Messages = [] ∨
          ∃ m ∈ r.Messages, m.Role = "" ∨ m.Content = "") := by
    intro r
    rw [GRPCServer.validate_eq_rest, key]
    simp [GRPCServer.protoToModel]
  refine ⟨?_, (key req).mpr, ?_, (pkey preq).mpr⟩
  · rw [Ne, key, not_not]
  · rw [Ne, pkey, not_not]

/-- C2: when the model and the message sequence are non-empty and some message
has an empty role or content, the error of validateChatCompletionRequest (on
both surfaces) carries the least index of such a message, every earlier message
having both fields non-empty, and it is the role error when that message has an
empty role, the content error otherwise. -/
theorem validate_least_index (req : models.ChatCompletionRequest)
    (preq : pb.ChatCompletionRequest)
    (hmodel : req.Model ≠ "") (hmsgs : req.Messages ≠ [])
    (hbad : ∃ m ∈ req.Messages, m.Role = "" ∨ m.Content = "")
    (pmodel : preq.Model ≠ "") (pmsgs : preq.Messages ≠ [])
    (pbad : ∃ m ∈ preq.Messages, m.Role = "" ∨ m.Content = "") :
    (∃ (i : Nat) (m : models.ChatMessage), req.Messages[i]? = some m ∧ (m.Role = "" ∨ m.Content = "") ∧
      (∀ (j : Nat) (m' : models.ChatMessage), j < i → req.Messages[j]? = some m' → m'.Role ≠ "" ∧ m'.Content ≠ "") ∧
      RESTServer.validateChatCompletionRequest req =
        some (if m.Role = "" then "message " ++ toString i ++ ": role is required"
          else "message " ++ toString i ++ ": content is required")) ∧
    (∃ (i : Nat) (m : pb.ChatMessage), preq.Messages[i]? = some m ∧ (m.Role = "" ∨ m.Content = "") ∧
      (∀ (j : Nat) (m' : pb.ChatMessage), j < i → preq.Messages[j]? = some m' → m'.Role ≠ "" ∧ m'.Content ≠ "") ∧
      GRPCServer.validateChatCompletionRequest preq =
        some (if m.Role = "" then "message " ++ toString i ++ ": role is required"
          else "message " ++ toString i ++ ": content is required")) := by
  have key : ∀ r : models.ChatCompletionRequest, r.Model ≠ "" → r.Messages ≠ [] →
      (∃ m ∈ r.Messages, m.Role = "" ∨ m.Content = "") →
      ∃ (i : Nat) (m : models.ChatMessage), r.Messages[i]? = some m ∧ (m.Role = "" ∨ m.Content = "") ∧
        (∀ (j : Nat) (m' : models.ChatMessage), j < i → r.Messages[j]? = some m' → m'.Role ≠ "" ∧ m'.Content ≠ "") ∧
        RESTServer.validateChatCompletionRequest r =
          some (if m.Role = "" then "message " ++ toString i ++ ": role is required"
            else "message " ++ toString i ++ ": content is required") := by
    intro r h1 h2 h3
    obtain ⟨i, m, hget, hb, hbefore, hres⟩ := RESTServer.validateMessages_first 0 r.Messages h3
    refine ⟨i, m, hget, hb, hbefore, ?_⟩
    have hlen : r.Messages.length ≠ 0 := by
      simpa [List.length_eq_zero] using h2
    simp only [RESTServer.validateChatCompletionRequest, h1, hlen, if_false]
    simpa using hres
  refine ⟨key req hmodel hmsgs hbad, ?_⟩
  have hconv : ∃ m ∈ (GRPCServer.protoToModel preq).Messages, m.Role = "" ∨ m.Content = "" := by
    obtain ⟨m, hm, hb⟩ := pbad
    exact ⟨⟨m.Role, m.Content⟩, by
      simp only [GRPCServer.protoToModel, List.mem_map]
      exact ⟨m, hm, rfl⟩, hb⟩
  obtain ⟨i, m, hget, hb, hbefore, hres⟩ :=
    key (GRPCServer.protoToModel preq) (by simpa [GRPCServer.protoToModel] using pmodel)
      (by simpa [GRPCServer.protoToModel] using pmsgs) hconv
  simp only [GRPCServer.protoToModel, List.getElem?_map, Option.map_eq_some'] at hget
  obtain ⟨pm, hpget, hpm⟩ := hget
  refine ⟨i, pm, hpget, by rw [← hpm] at hb; exact hb, ?_, ?_⟩
  · intro j m' hj hjget
    have := hbefore j ⟨m'.Role, m'.Content⟩ hj (by
      simp only [GRPCServer.protoToModel, List.getElem?_map, hjget]; rfl)
    exact this
  · rw [GRPCServer.validate_eq_rest, hres, ← hpm]

/-- Witness for C2: a request whose second message is the first with an empty
field (both are empty there), on each surface. -/
theorem validate_least_index_witness :
    (∃ (i : Nat) (m : models.ChatMessage), ([⟨"user", "Hello"⟩, ⟨"", ""⟩, ⟨"user", ""⟩] : List models.ChatMessage)[i]? = some m ∧
      (m.Role = "" ∨ m.Content = "") ∧
      (∀ (j : Nat) (m' : models.ChatMessage), j < i →
        ([⟨"user", "Hello"⟩, ⟨"", ""⟩, ⟨"user", ""⟩] : List models.ChatMessage)[j]? = some m' →
        m'.Role ≠ "" ∧ m'.Content ≠ "") ∧
      RESTServer.validateChatCompletionRequest
          ⟨"gpt", [⟨"user", "Hello"⟩, ⟨"", ""⟩, ⟨"user", ""⟩], none, none, none, ""⟩ =
        some (if m.Role = "" then "message " ++ toString i ++ ": role is required"
          else "message " ++ toString i ++ ": content is required")) ∧
    (∃ (i : Nat) (m : pb.ChatMessage), ([⟨"user", "Hello"⟩, ⟨"user", ""⟩] : List pb.ChatMessage)[i]? = some m ∧
      (m.Role = "" ∨ m.Content = "") ∧
      (∀ (j : Nat) (m' : pb.ChatMessage), j < i →
        ([⟨"user", "Hello"⟩, ⟨"user", ""⟩] : List pb.ChatMessage)[j]? = some m' →
        m'.Role ≠ "" ∧ m'.Content ≠ "") ∧
      GRPCServer.validateChatCompletionRequest
          ⟨"gpt", [⟨"user", "Hello"⟩, ⟨"user", ""⟩], none, none, none, ""⟩ =
        some (if m.Role = "" then "message " ++ toString i ++ ": role is required"
          else "message " ++ toString i ++ ": content is required")) :=
  validate_least_index
    ⟨"gpt", [⟨"user", "Hello"⟩, ⟨"", ""⟩, ⟨"user", ""⟩], none, none, none, ""⟩
    ⟨"gpt", [⟨"user", "Hello"⟩, ⟨"user", ""⟩], none, none, none, ""⟩
    (by decide) (by decide) ⟨⟨"", ""⟩, by decide, by decide⟩
    (by decide) (by decide) ⟨⟨"user", ""⟩, by decide, by decide⟩

/-! ## Properties of the persona merge -/

/-- Without a system message the loop changes nothing and reports none. -/
theorem OpenWebUIClient.mergeSystemMessage_absent (p : String)
    (ms : List models.ChatMessage) (h : ∀ m ∈ ms, m.Role ≠ "system") :
    OpenWebUIClient.mergeSystemMessage p ms = (ms, false) := by
  induction ms with
  | nil => rfl
  | cons a rest ih =>
    have ha : a.Role ≠ "system" := h a (List.mem_cons_self _ _)
    have hr := ih (fun m hm => h m (List.mem_cons_of_mem _ hm))
    simp [OpenWebUIClient.mergeSystemMessage, ha, hr]

/-- With a first system message at index `k` the loop rewrites exactly the
content of that element. -/
theorem OpenWebUIClient.mergeSystemMessage_present (p : String)
    (ms : List models.ChatMessage) (k : Nat) (m : models.ChatMessage)
    (hk : ms[k]? = some m) (hm : m.Role = "system")
    (hfirst : ∀ (j : Nat) (m' : models.ChatMessage),
      j < k → ms[j]? = some m' → m'.Role ≠ "system") :
    OpenWebUIClient.mergeSystemMessage p ms =
      (ms.set k { Role := "system", Content := p ++ "\n\n" ++ m.Content }, true) := by
  induction ms generalizing k with
  | nil => simp at hk
  | cons a rest ih =>
    cases k with
    | zero =>
      simp only [List.getElem?_cons_zero, Option.some.injEq] at hk
      subst hk
      simp [OpenWebUIClient.mergeSystemMessage, hm]
    | succ n =>
      have ha : a.Role ≠ "system" := hfirst 0 a (by omega) (by simp)
      have hr := ih n (by simpa using hk)
        (fun j m' hj hget => hfirst (j + 1) m' (by omega) (by simpa using hget))
      simp [OpenWebUIClient.mergeSystemMessage, ha, hr]

/-- The loop leaves the messages that are not system messages as they are. -/
theorem OpenWebUIClient.mergeSystemMessage_filter (p : String)
    (ms : List models.ChatMessage) :
    (OpenWebUIClient.mergeSystemMessage p ms).1.filter (fun m => decide (m.Role ≠ "system")) =
      ms.filter (fun m => decide (m.Role ≠ "system")) := by
  induction ms with
  | nil => rfl
  | cons a rest ih =>
    by_cases ha : a.Role = "system"
    · simp [OpenWebUIClient.mergeSystemMessage, ha]
    · simp only [OpenWebUIClient.mergeSystemMessage, ha, if_false]
      rw [List.filter_cons, List.filter_cons, ih]

/-- The loop sets `hasSystemMessage` exactly when a system message exists. -/
theorem OpenWebUIClient.mergeSystemMessage_found (p : String)
    (ms : List models.ChatMessage) :
    (OpenWebUIClient.mergeSystemMessage p ms).2 = true ↔ ∃ m ∈ ms, m.Role = "system" := by
  induction ms with
  | nil => simp [OpenWebUIClient.mergeSystemMessage]
  | cons a rest ih =>
    by_cases ha : a.Role = "system"
    · simp [OpenWebUIClient.mergeSystemMessage, ha]
    · simp [OpenWebUIClient.mergeSystemMessage, ha, ih]

/-- The persona text followed by a blank line and a content is never empty. -/
theorem persona_append_ne_empty (p c : String) : p ++ "\n\n" ++ c ≠ "" := by
  intro h
  have hl := congrArg String.length h
  simp only [String.length_append] at hl
  have h2 : "\n\n".length = 2 := by decide
  have h0 : "".length = 0 := by decide
  omega

/-- The loop keeps every role and keeps every content non-empty. -/
theorem OpenWebUIClient.mergeSystemMessage_nonempty (p : String)
    (ms : List models.ChatMessage) (h : ∀ m ∈ ms, m.Role ≠ "" ∧ m.Content ≠ "") :
    ∀ m ∈ (OpenWebUIClient.mergeSystemMessage p ms).1, m.Role ≠ "" ∧ m.Content ≠ "" := by
  induction ms with
  | nil => simp [OpenWebUIClient.mergeSystemMessage]
  | cons a rest ih =>
    have ha := h a (List.mem_cons_self _ _)
    have hr := ih (fun m hm => h m (List.mem_cons_of_mem _ hm))
    by_cases hs : a.Role = "system"
    · intro m hm
      simp only [OpenWebUIClient.mergeSystemMessage, hs, if_true, List.mem_cons] at hm
      rcases hm with e | e
      · subst e
        exact ⟨by show "system" ≠ ""; decide, persona_append_ne_empty p a.Content⟩
      · exact h m (List.mem_cons_of_mem _ e)
    · intro m hm
      simp only [OpenWebUIClient.mergeSystemMessage, hs, if_false, List.mem_cons] at hm
      rcases hm with e | e
      · subst e; exact ha
      · exact hr m e

/-- Without a persona prompt the request comes back as it went in. -/
theorem OpenWebUIClient.prepare_of_empty_persona (req : models.ChatCompletionRequest)
    (hp : req.PersonaPrompt = "") :
    OpenWebUIClient.prepareOpenWebUIRequest req = req := by
  cases req with
  | mk model msgs temp maxTokens stream persona =>
    simp only at hp
    subst hp
    simp [OpenWebUIClient.prepareOpenWebUIRequest]

/-- C3: with a non-empty persona prompt `p` and a first system message at index
`k`, prepareOpenWebUIRequest returns the input request with the persona prompt
cleared and with messages of the same length, where message `k` is the system
message with content `p`, a blank line and the original content, and every
other index holds the input message. -/
theorem prepare_merges_first_system (req : models.ChatCompletionRequest) (k : Nat)
    (m : models.ChatMessage)
    (hp : req.PersonaPrompt ≠ "")
    (hk : req.Messages[k]? = some m) (hm : m.Role = "system")
    (hfirst : ∀ (j : Nat) (m' : models.ChatMessage),
      j < k → req.Messages[j]? = some m' → m'.Role ≠ "system") :
    (OpenWebUIClient.prepareOpenWebUIRequest req).PersonaPrompt = "" ∧
    (OpenWebUIClient.prepareOpenWebUIRequest req).Model = req.Model ∧
    (OpenWebUIClient.prepareOpenWebUIRequest req).Temperature = req.Temperature ∧
    (OpenWebUIClient.prepareOpenWebUIRequest req).MaxTokens = req.MaxTokens ∧
    (OpenWebUIClient.prepareOpenWebUIRequest req).Stream = req.Stream ∧
    (OpenWebUIClient.prepareOpenWebUIRequest req).Messages.length = req.Messages.length ∧
    (OpenWebUIClient.prepareOpenWebUIRequest req).Messages[k]? =
      some { Role := "system", Content := req.PersonaPrompt ++ "\n\n" ++ m.Content } ∧
    ∀ j : Nat, j ≠ k →
      (OpenWebUIClient.prepareOpenWebUIRequest req).Messages[j]? = req.Messages[j]? := by
  have hmerge := OpenWebUIClient.mergeSystemMessage_present req.PersonaPrompt
    req.Messages k m hk hm hfirst
  have hlt : k < req.Messages.length := by
    rcases Nat.lt_or_ge k req.Messages.length with h | h
    · exact h
    · rw [List.getElem?_eq_none h] at hk
      cases hk
  have hout : OpenWebUIClient.prepareOpenWebUIRequest req =
      { req with
        Messages := req.Messages.set k
          { Role := "system", Content := req.PersonaPrompt ++ "\n\n" ++ m.Content },
        PersonaPrompt := "" } := by
    simp [OpenWebUIClient.prepareOpenWebUIRequest, hp, hmerge]
  rw [hout]
  refine ⟨rfl, rfl, rfl, rfl, rfl, by simp, ?_, ?_⟩
  · simp [List.getElem?_set_self, hlt]
  · intro j hj
    simp [List.getElem?_set_ne (Ne.symm hj)]

/-- Witness for C3: two system messages, the first at index 1. -/
theorem prepare_merges_first_system_witness :
    (OpenWebUIClient.prepareOpenWebUIRequest
      ⟨"gpt", [⟨"user", "Hi"⟩, ⟨"system", "Base"⟩, ⟨"system", "Late"⟩],
        some 0, none, some false, "Persona"⟩).Messages =
      [⟨"user", "Hi"⟩, ⟨"system", "Persona\n\nBase"⟩, ⟨"system", "Late"⟩] ∧
    (OpenWebUIClient.prepareOpenWebUIRequest
      ⟨"gpt", [⟨"user", "Hi"⟩, ⟨"system", "Base"⟩, ⟨"system", "Late"⟩],
        some 0, none, some false, "Persona"⟩).Messages[1]? =
      some { Role := "system", Content := "Persona" ++ "\n\n" ++ "Base" } :=
  ⟨by decide,
    (prepare_merges_first_system
      ⟨"gpt", [⟨"user", "Hi"⟩, ⟨"system", "Base"⟩, ⟨"system", "Late"⟩],
        some 0, none, some false, "Persona"⟩ 1 ⟨"system", "Base"⟩
      (by decide) (by decide) (by decide)
      (fun j m' hj hget => by
        have hj0 : j = 0 := by omega
        subst hj0
        simp only [List.getElem?_cons_zero, Option.some.injEq] at hget
        subst hget
        decide)).2.2.2.2.2.2.1⟩

/-- C4: with a non-empty persona prompt `p` and no system message,
prepareOpenWebUIRequest returns the input request with the persona prompt
cleared and with the message `system: p` put in front of the input messages,
which follow in their order; the other fields are unchanged. -/
theorem prepare_prepends_system (req : models.ChatCompletionRequest)
    (hp : req.PersonaPrompt ≠ "")
    (hnone : ∀ m ∈ req.Messages, m.Role ≠ "system") :
    OpenWebUIClient.prepareOpenWebUIRequest req =
      { Model := req.Model,
        Messages := { Role := "system", Content := req.PersonaPrompt } :: req.Messages,
        Temperature := req.Temperature,
        MaxTokens := req.MaxTokens,
        Stream := req.Stream,
        PersonaPrompt := "" } ∧
    (OpenWebUIClient.prepareOpenWebUIRequest req).Messages.length =
      req.Messages.length + 1 := by
  have hmerge := OpenWebUIClient.mergeSystemMessage_absent req.PersonaPrompt
    req.Messages hnone
  have hout : OpenWebUIClient.prepareOpenWebUIRequest req =
      { Model := req.Model,
        Messages := { Role := "system", Content := req.PersonaPrompt } :: req.Messages,
        Temperature := req.Temperature,
        MaxTokens := req.MaxTokens,
        Stream := req.Stream,
        PersonaPrompt := "" } := by
    simp [OpenWebUIClient.prepareOpenWebUIRequest, hp, hmerge]
  rw [hout]
  exact ⟨rfl, by simp⟩

/-- Witness for C4: the example of the specification. -/
theorem prepare_prepends_system_witness :
    OpenWebUIClient.prepareOpenWebUIRequest
        ⟨"gpt", [⟨"user", "Hello"⟩], some 0, some 16, none, "You are helpful"⟩ =
      { Model := "gpt",
        Messages := [⟨"system", "You are helpful"⟩, ⟨"user", "Hello"⟩],
        Temperature := some 0,
        MaxTokens := some 16,
        Stream := none,
        PersonaPrompt := "" } :=
  (prepare_prepends_system
    ⟨"gpt", [⟨"user", "Hello"⟩], some 0, some 16, none, "You are helpful"⟩
    (by decide) (by decide)).1

/-- C5: with an empty persona prompt prepareOpenWebUIRequest returns a request
equal to the input in every field, whatever the roles of the messages. -/
theorem prepare_noop_without_persona (req : models.ChatCompletionRequest)
    (hp : req.PersonaPrompt = "") :
    OpenWebUIClient.prepareOpenWebUIRequest req = req :=
  OpenWebUIClient.prepare_of_empty_persona req hp

/-- Witness for C5: a request with a system message and no persona prompt. -/
theorem prepare_noop_without_persona_witness :
    OpenWebUIClient.prepareOpenWebUIRequest
        ⟨"gpt", [⟨"system", "Base"⟩, ⟨"user", "Hi"⟩], none, some 0, some true, ""⟩ =
      ⟨"gpt", [⟨"system", "Base"⟩, ⟨"user", "Hi"⟩], none, some 0, some true, ""⟩ :=
  prepare_noop_without_persona
    ⟨"gpt", [⟨"system", "Base"⟩, ⟨"user", "Hi"⟩], none, some 0, some true, ""⟩ rfl

/-- C6: the request returned by prepareOpenWebUIRequest has an empty persona
prompt, for every input request. -/
theorem prepare_clears_persona (req : models.ChatCompletionRequest) :
    (OpenWebUIClient.prepareOpenWebUIRequest req).PersonaPrompt = "" := by
  simp [OpenWebUIClient.prepareOpenWebUIRequest]

/-- C7: the messages whose role is not `system` are the same, in the same order
and with the same contents, in the output of prepareOpenWebUIRequest as in its
input. -/
theorem prepare_preserves_non_system (req : models.ChatCompletionRequest) :
    (OpenWebUIClient.prepareOpenWebUIRequest req).Messages.filter
        (fun m => decide (m.Role ≠ "system")) =
      req.Messages.filter (fun m => decide (m.Role ≠ "system")) := by
  have hf := OpenWebUIClient.mergeSystemMessage_filter req.PersonaPrompt req.Messages
  by_cases hp : req.PersonaPrompt = ""
  · rw [OpenWebUIClient.prepare_of_empty_persona req hp]
  · by_cases hs : (OpenWebUIClient.mergeSystemMessage req.PersonaPrompt req.Messages).2 = true
    · simp only [OpenWebUIClient.prepareOpenWebUIRequest, ne_eq, hp, not_false_eq_true,
        if_true, hs, Bool.not_true, Bool.false_eq_true, if_false]
      exact hf
    · simp only [OpenWebUIClient.prepareOpenWebUIRequest, ne_eq, hp, not_false_eq_true,
        if_true, hs, Bool.not_false, List.singleton_append]
      rw [List.filter_cons]
      simpa using hf

/-! ## The persona merge on the heap -/

/-- Indexing a slice reads the element of its value view. -/
theorem mem.Slice.index_eq_read (h : mem.Heap) (s : mem.Slice) (i : Nat) :
    s.index h i = (s.read h)[i]? := by
  unfold mem.Slice.index mem.Slice.read
  by_cases hi : i < s.len
  · simp [hi, List.getElem?_take_of_lt, List.getElem?_drop]
  · simp [hi, List.getElem?_take_eq_none (Nat.le_of_not_lt hi)]

/-- A valid slice has as many elements as its header says. -/
theorem mem.Slice.length_read (h : mem.Heap) (s : mem.Slice) (hv : s.valid h) :
    (s.read h).length = s.len := by
  unfold mem.Slice.read
  rw [List.length_take, List.length_drop]
  have := hv.2
  omega

/-- The backing array found at an address after a store. -/
theorem mem.Slice.getD_storeContent (h : mem.Heap) (s : mem.Slice) (i : Nat) (c : String)
    (b : Nat) :
    (s.storeContent h i c).getD b [] =
      if s.arr = b then
        (h.getD b []).modify (fun m => { m with Content := c }) (s.off + i)
      else h.getD b [] := by
  unfold mem.Slice.storeContent
  simp only [List.getD_eq_getElem?_getD, List.getElem?_modify]
  by_cases hb : s.arr = b
  · subst hb
    cases hget : h[s.arr]? <;> simp
  · cases hget : h[b]? <;> simp [hb]

/-- A store keeps the number of backing arrays. -/
theorem mem.Slice.length_storeContent (h : mem.Heap) (s : mem.Slice) (i : Nat) (c : String) :
    (s.storeContent h i c).length = h.length := by
  simp [mem.Slice.storeContent]

/-- A store into element `i` of a slice, seen through that slice. -/
theorem mem.Slice.read_storeContent (h : mem.Heap) (s : mem.Slice) (i : Nat) (c : String) :
    s.read (s.storeContent h i c) =
      (s.read h).modify (fun m => { m with Content := c }) i := by
  apply List.ext_getElem?
  intro j
  unfold mem.Slice.read
  rw [mem.Slice.getD_storeContent]
  simp only [if_true, List.getElem?_modify]
  by_cases hj : j < s.len
  · simp only [List.getElem?_take_of_lt hj, List.getElem?_drop, List.getElem?_modify]
    by_cases hij : i = j
    · subst hij; simp
    · have : s.off + i ≠ s.off + j := by omega
      simp [hij, this]
  · simp [List.getElem?_take_eq_none (Nat.le_of_not_lt hj)]

/-- Rewriting element `i` of a list splits it around that element. -/
theorem list_modify_split {α : Type} (f : α → α) (l : List α) (i : Nat)
    (a : α) (hi : l[i]? = some a) :
    l.modify f i = l.take i ++ f a :: l.drop (i + 1) := by
  induction l generalizing i with
  | nil => simp at hi
  | cons x rest ih =>
    cases i with
    | zero =>
      simp only [List.getElem?_cons_zero, Option.some.injEq] at hi
      subst hi
      simp
    | succ n =>
      simp only [List.getElem?_cons_succ] at hi
      simp [ih n hi]

/-- The loop on the heap either leaves the heap alone or stores into one
element of the slice. -/
theorem mem.mergeSystemMessage_shape (p : String) (s : mem.Slice) (n i : Nat) (h : mem.Heap) :
    mem.mergeSystemMessage p s n i h = (h, false) ∨
      ∃ (j : Nat) (c : String), mem.mergeSystemMessage p s n i h = (s.storeContent h j c, true) := by
  induction n generalizing i with
  | zero => left; rfl
  | succ n ih =>
    unfold mem.mergeSystemMessage
    cases hidx : s.index h i with
    | none => left; rfl
    | some msg =>
      by_cases hs : msg.Role = "system"
      · right
        exact ⟨i, p ++ "\n\n" ++ msg.Content, by simp [hs]⟩
      · simpa [hs] using ih (i + 1)

/-- The loop on the heap computes the loop on values: from index `i` on, with
as many iterations left as elements, the slice afterwards holds the elements
before `i` followed by the merged rest, and the flags agree. -/
theorem mem.mergeSystemMessage_read (p : String) (s : mem.Slice) (n i : Nat) (h : mem.Heap)
    (hn : i + n = (s.read h).length) :
    s.read (mem.mergeSystemMessage p s n i h).1 =
        (s.read h).take i ++ (OpenWebUIClient.mergeSystemMessage p ((s.read h).drop i)).1 ∧
      (mem.mergeSystemMessage p s n i h).2 =
        (OpenWebUIClient.mergeSystemMessage p ((s.read h).drop i)).2 := by
  induction n generalizing i with
  | zero =>
    have hd : (s.read h).drop i = [] := List.drop_of_length_le (by omega)
    have ht : (s.read h).take i = s.read h := List.take_of_length_le (by omega)
    simp [mem.mergeSystemMessage, OpenWebUIClient.mergeSystemMessage, hd, ht]
  | succ n ih =>
    have hlt : i < (s.read h).length := by omega
    have hget : (s.read h)[i]? = some ((s.read h)[i]) := List.getElem?_eq_getElem hlt
    have hdrop : (s.read h).drop i = (s.read h)[i] :: (s.read h).drop (i + 1) :=
      List.drop_eq_getElem_cons hlt
    unfold mem.mergeSystemMessage
    rw [mem.Slice.index_eq_read, hget, hdrop]
    by_cases hs : ((s.read h)[i]).Role = "system"
    · simp only [hs, if_true, OpenWebUIClient.mergeSystemMessage]
      rw [mem.Slice.read_storeContent, list_modify_split _ _ i _ hget]
      refine ⟨?_, trivial⟩
      rw [hs]
    · simp only [hs, if_false, OpenWebUIClient.mergeSystemMessage]
      have hrec := ih (i + 1) (by omega)
      refine ⟨?_, hrec.2⟩
      rw [hrec.1, List.take_succ, hget]
      simp only [Option.toList, List.append_assoc, List.cons_append, List.nil_append]

/-- The loop on the heap keeps the number of backing arrays. -/
theorem mem.mergeSystemMessage_heap_length (p : String) (s : mem.Slice) (n i : Nat) (h : mem.Heap) :
    (mem.mergeSystemMessage p s n i h).1.length = h.length := by
  rcases mem.mergeSystemMessage_shape p s n i h with e | ⟨j, c, e⟩
  · rw [e]
  · rw [e]; exact mem.Slice.length_storeContent h s j c

/-- Allocating a fresh backing array does not change what a valid slice reads. -/
theorem mem.Slice.read_append (h : mem.Heap) (s : mem.Slice) (fresh : List models.ChatMessage)
    (hs : s.arr < h.length) :
    s.read (h ++ [fresh]) = s.read h := by
  unfold mem.Slice.read
  simp only [List.getD_eq_getElem?_getD]
  rw [List.getElem?_append_left hs]

/-- The slice that covers a freshly allocated array reads that array. -/
theorem mem.Slice.read_fresh (h : mem.Heap) (fresh : List models.ChatMessage) :
    mem.Slice.read (h ++ [fresh]) { arr := h.length, off := 0, len := fresh.length } = fresh := by
  unfold mem.Slice.read
  simp

/-- The request returned on the heap denotes the request returned on values:
the value view of prepareOpenWebUIRequest is what the code computes. -/
theorem mem.prepare_refines (h : mem.Heap) (req : mem.ChatCompletionRequest)
    (hv : req.Messages.valid h) :
    (mem.prepareOpenWebUIRequest h req).2.view (mem.prepareOpenWebUIRequest h req).1 =
      OpenWebUIClient.prepareOpenWebUIRequest (req.view h) := by
  have hloop := mem.mergeSystemMessage_read req.PersonaPrompt req.Messages req.Messages.len 0 h
    (by rw [mem.Slice.length_read h req.Messages hv]; omega)
  simp only [List.take_zero, List.nil_append, List.drop_zero] at hloop
  by_cases hp : req.PersonaPrompt = ""
  · simp [mem.prepareOpenWebUIRequest, OpenWebUIClient.prepareOpenWebUIRequest,
      mem.ChatCompletionRequest.view, hp]
  · by_cases hf : (mem.mergeSystemMessage req.PersonaPrompt req.Messages
        req.Messages.len 0 h).2 = true
    · have hf' := hf
      rw [hloop.2] at hf'
      simp [mem.prepareOpenWebUIRequest, OpenWebUIClient.prepareOpenWebUIRequest,
        mem.ChatCompletionRequest.view, hp, hf, hf', hloop.1]
    · have hf' := hf
      rw [hloop.2] at hf'
      simp only [mem.prepareOpenWebUIRequest, OpenWebUIClient.prepareOpenWebUIRequest,
        mem.ChatCompletionRequest.view, ne_eq, hp, not_false_eq_true, if_true, hf, hf',
        Bool.not_false, Bool.not_eq_true, Bool.not_true]
      rw [mem.Slice.read_fresh, hloop.1]

/-- What the caller's request denotes after the call: with a persona prompt its
messages are the ones the loop left in the shared backing array. -/
theorem mem.prepare_caller_view (h : mem.Heap) (req : mem.ChatCompletionRequest)
    (hv : req.Messages.valid h) :
    req.view (mem.prepareOpenWebUIRequest h req).1 =
      if req.PersonaPrompt ≠ "" then
        { req.view h with
          Messages :=
            (OpenWebUIClient.mergeSystemMessage req.PersonaPrompt (req.Messages.read h)).1 }
      else req.view h := by
  have hloop := mem.mergeSystemMessage_read req.PersonaPrompt req.Messages req.Messages.len 0 h
    (by rw [mem.Slice.length_read h req.Messages hv]; omega)
  simp only [List.take_zero, List.nil_append, List.drop_zero] at hloop
  have hlen := mem.mergeSystemMessage_heap_length req.PersonaPrompt req.Messages req.Messages.len 0 h
  by_cases hp : req.PersonaPrompt = ""
  · simp [mem.prepareOpenWebUIRequest, hp]
  · by_cases hf : (mem.mergeSystemMessage req.PersonaPrompt req.Messages
        req.Messages.len 0 h).2 = true
    · simp [mem.prepareOpenWebUIRequest, mem.ChatCompletionRequest.view, hp, hf, hloop.1]
    · simp only [mem.prepareOpenWebUIRequest, mem.ChatCompletionRequest.view, ne_eq, hp,
        not_false_eq_true, if_true, hf, Bool.not_false, Bool.not_eq_true]
      rw [mem.Slice.read_append _ _ _ (by rw [hlen]; exact hv.1), hloop.1]

/-- C8 (the code at the failing input): a caller holds the request
`gpt, [system: Base, user: Hi]` with persona prompt `Persona`; after
prepareOpenWebUIRequest has returned, the content of the first message of the
caller's own request has become `Persona`, a blank line, `Base`, and a second
call on the same request folds the persona in once more. -/
theorem prepare_mutates_caller_request :
    mem.Slice.valid [[⟨"system", "Base"⟩, ⟨"user", "Hi"⟩]] ⟨0, 0, 2⟩ ∧
    (mem.ChatCompletionRequest.view [[⟨"system", "Base"⟩, ⟨"user", "Hi"⟩]]
        ⟨"gpt", ⟨0, 0, 2⟩, none, none, none, "Persona"⟩).Messages =
      [⟨"system", "Base"⟩, ⟨"user", "Hi"⟩] ∧
    (mem.ChatCompletionRequest.view
        (mem.prepareOpenWebUIRequest [[⟨"system", "Base"⟩, ⟨"user", "Hi"⟩]]
          ⟨"gpt", ⟨0, 0, 2⟩, none, none, none, "Persona"⟩).1
        ⟨"gpt", ⟨0, 0, 2⟩, none, none, none, "Persona"⟩).Messages =
      [⟨"system", "Persona\n\nBase"⟩, ⟨"user", "Hi"⟩] ∧
    (mem.ChatCompletionRequest.view
        (mem.prepareOpenWebUIRequest
          (mem.prepareOpenWebUIRequest [[⟨"system", "Base"⟩, ⟨"user", "Hi"⟩]]
            ⟨"gpt", ⟨0, 0, 2⟩, none, none, none, "Persona"⟩).1
          ⟨"gpt", ⟨0, 0, 2⟩, none, none, none, "Persona"⟩).1
        ⟨"gpt", ⟨0, 0, 2⟩, none, none, none, "Persona"⟩).Messages =
      [⟨"system", "Persona\n\nPersona\n\nBase"⟩, ⟨"user", "Hi"⟩] := by
  decide

/-- Putting the persona and a blank line in front of a content changes it. -/
theorem persona_append_ne_self (p c : String) : p ++ "\n\n" ++ c ≠ c := by
  intro h
  have hl := congrArg String.length h
  simp only [String.length_append] at hl
  have h2 : "\n\n".length = 2 := by decide
  omega

/-- When a system message exists the loop changes the message sequence. -/
theorem OpenWebUIClient.mergeSystemMessage_changes (p : String)
    (ms : List models.ChatMessage) (h : ∃ m ∈ ms, m.Role = "system") :
    (OpenWebUIClient.mergeSystemMessage p ms).1 ≠ ms := by
  induction ms with
  | nil => simp at h
  | cons a rest ih =>
    by_cases ha : a.Role = "system"
    · simp only [OpenWebUIClient.mergeSystemMessage, ha, if_true]
      intro e
      have e1 := (List.cons.inj e).1
      have e2 := congrArg models.ChatMessage.Content e1
      exact persona_append_ne_self p a.Content e2
    · have hrest : ∃ m ∈ rest, m.Role = "system" := by
        obtain ⟨m, hm, hs⟩ := h
        rcases List.mem_cons.mp hm with e | e
        · subst e; exact absurd hs ha
        · exact ⟨m, e, hs⟩
      simp only [OpenWebUIClient.mergeSystemMessage, ha, if_false]
      intro e
      exact ih hrest (List.cons.inj e).2

/-- The caller's request is left as it was when there is no persona prompt or
no system message. -/
theorem mem.prepare_caller_unchanged (h : mem.Heap) (req : mem.ChatCompletionRequest)
    (hv : req.Messages.valid h)
    (hq : req.PersonaPrompt = "" ∨ ∀ m ∈ req.Messages.read h, m.Role ≠ "system") :
    req.view (mem.prepareOpenWebUIRequest h req).1 = req.view h := by
  rw [mem.prepare_caller_view h req hv]
  by_cases hp : req.PersonaPrompt = ""
  · simp [hp]
  · rcases hq with e | e
    · exact absurd e hp
    · simp [hp, OpenWebUIClient.mergeSystemMessage_absent _ _ e, mem.ChatCompletionRequest.view]

/-- The caller's request is changed by the call whenever it has a persona prompt
and a system message. -/
theorem mem.prepare_caller_changed (h : mem.Heap) (req : mem.ChatCompletionRequest)
    (hv : req.Messages.valid h) (hp : req.PersonaPrompt ≠ "")
    (hs : ∃ m ∈ req.Messages.read h, m.Role = "system") :
    req.view (mem.prepareOpenWebUIRequest h req).1 ≠ req.view h := by
  rw [mem.prepare_caller_view h req hv]
  simp only [ne_eq, hp, not_false_eq_true, if_true]
  intro e
  have e1 := congrArg models.ChatCompletionRequest.Messages e
  exact OpenWebUIClient.mergeSystemMessage_changes _ _ hs e1

/-- The loop keeps the number of messages. -/
theorem OpenWebUIClient.mergeSystemMessage_length (p : String)
    (ms : List models.ChatMessage) :
    (OpenWebUIClient.mergeSystemMessage p ms).1.length = ms.length := by
  induction ms with
  | nil => rfl
  | cons a rest ih =>
    by_cases ha : a.Role = "system"
    · simp [OpenWebUIClient.mergeSystemMessage, ha]
    · simp [OpenWebUIClient.mergeSystemMessage, ha, ih]

/-- A request accepted by the REST validator is still acceptable after the
persona merge. -/
theorem OpenWebUIClient.prepare_valid (req : models.ChatCompletionRequest)
    (hv : RESTServer.validateChatCompletionRequest req = none) :
    (OpenWebUIClient.prepareOpenWebUIRequest req).Model ≠ "" ∧
    (OpenWebUIClient.prepareOpenWebUIRequest req).Messages ≠ [] ∧
    ∀ m ∈ (OpenWebUIClient.prepareOpenWebUIRequest req).Messages,
      m.Role ≠ "" ∧ m.Content ≠ "" := by
  obtain ⟨hmodel, hmsgs, hall⟩ := (RESTServer.validate_eq_none req).mp hv
  by_cases hp : req.PersonaPrompt = ""
  · rw [OpenWebUIClient.prepare_of_empty_persona req hp]
    exact ⟨hmodel, hmsgs, hall⟩
  · have hne := OpenWebUIClient.mergeSystemMessage_nonempty req.PersonaPrompt req.Messages hall
    have hlen := OpenWebUIClient.mergeSystemMessage_length req.PersonaPrompt req.Messages
    by_cases hf : (OpenWebUIClient.mergeSystemMessage req.PersonaPrompt req.Messages).2 = true
    · simp only [OpenWebUIClient.prepareOpenWebUIRequest, ne_eq, hp, not_false_eq_true,
        if_true, hf, Bool.not_true, Bool.false_eq_true, if_false]
      refine ⟨hmodel, ?_, hne⟩
      intro e
      rw [e] at hlen
      exact hmsgs (List.length_eq_zero.mp hlen.symm)
    · simp only [OpenWebUIClient.prepareOpenWebUIRequest, ne_eq, hp, not_false_eq_true,
        if_true, hf, Bool.not_false, List.singleton_append]
      refine ⟨hmodel, List.cons_ne_nil _ _, ?_⟩
      intro m hm
      rcases List.mem_cons.mp hm with e | e
      · subst e
        exact ⟨by show "system" ≠ ""; decide, hp⟩
      · exact hne m e

/-- C9: for every request that validateChatCompletionRequest accepts (on the
REST surface, or on the gRPC surface before conversion), the request produced
by prepareOpenWebUIRequest has a non-empty model and at least one message, and
every message in it, a prepended or rewritten system message included, has a
non-empty role and a non-empty content. -/
theorem prepare_preserves_validity (req : models.ChatCompletionRequest)
    (preq : pb.ChatCompletionRequest)
    (hv : RESTServer.validateChatCompletionRequest req = none)
    (pv : GRPCServer.validateChatCompletionRequest preq = none) :
    ((OpenWebUIClient.prepareOpenWebUIRequest req).Model ≠ "" ∧
      (OpenWebUIClient.prepareOpenWebUIRequest req).Messages ≠ [] ∧
      ∀ m ∈ (OpenWebUIClient.prepareOpenWebUIRequest req).Messages,
        m.Role ≠ "" ∧ m.Content ≠ "") ∧
    ((OpenWebUIClient.prepareOpenWebUIRequest (GRPCServer.protoToModel preq)).Model ≠ "" ∧
      (OpenWebUIClient.prepareOpenWebUIRequest (GRPCServer.protoToModel preq)).Messages ≠ [] ∧
      ∀ m ∈ (OpenWebUIClient.prepareOpenWebUIRequest (GRPCServer.protoToModel preq)).Messages,
        m.Role ≠ "" ∧ m.Content ≠ "") :=
  ⟨OpenWebUIClient.prepare_valid req hv,
    OpenWebUIClient.prepare_valid (GRPCServer.protoToModel preq)
      (by rw [← GRPCServer.validate_eq_rest]; exact pv)⟩

/-- Witness for C9: an accepted request with a persona prompt on each surface,
one with a system message to rewrite and one without. -/
theorem prepare_preserves_validity_witness :
    ((OpenWebUIClient.prepareOpenWebUIRequest
        ⟨"gpt", [⟨"system", "Base"⟩, ⟨"user", "Hi"⟩], none, none, none, "Persona"⟩).Model ≠ "" ∧
      (OpenWebUIClient.prepareOpenWebUIRequest
        ⟨"gpt", [⟨"system", "Base"⟩, ⟨"user", "Hi"⟩], none, none, none, "Persona"⟩).Messages ≠ [] ∧
      ∀ m ∈ (OpenWebUIClient.prepareOpenWebUIRequest
        ⟨"gpt", [⟨"system", "Base"⟩, ⟨"user", "Hi"⟩], none, none, none, "Persona"⟩).Messages,
        m.Role ≠ "" ∧ m.Content ≠ "") ∧
    ((OpenWebUIClient.prepareOpenWebUIRequest (GRPCServer.protoToModel
        ⟨"gpt", [⟨"user", "Hi"⟩], none, none, none, "Persona"⟩)).Model ≠ "" ∧
      (OpenWebUIClient.prepareOpenWebUIRequest (GRPCServer.protoToModel
        ⟨"gpt", [⟨"user", "Hi"⟩], none, none, none, "Persona"⟩)).Messages ≠ [] ∧
      ∀ m ∈ (OpenWebUIClient.prepareOpenWebUIRequest (GRPCServer.protoToModel
        ⟨"gpt", [⟨"user", "Hi"⟩], none, none, none, "Persona"⟩)).Messages,
        m.Role ≠ "" ∧ m.Content ≠ "") :=
  prepare_preserves_validity
    ⟨"gpt", [⟨"system", "Base"⟩, ⟨"user", "Hi"⟩], none, none, none, "Persona"⟩
    ⟨"gpt", [⟨"user", "Hi"⟩], none, none, none, "Persona"⟩
    (by decide) (by decide)

/-! ## Rejected requests are not forwarded -/

/-- C10: when validation rejects a request no call is made to the client on
either surface. REST handleChatCompletion, on a writer that has not been written
to, answers with status 400 and the envelope `Invalid request`, the validation
text, 400; gRPC ChatCompletion returns a nil response and an error whose text is
`invalid request: ` followed by the validation text. -/
theorem rejected_request_not_forwarded (client : Client) (w : ResponseWriter)
    (req : models.ChatCompletionRequest) (preq : pb.ChatCompletionRequest)
    (e pe : String)
    (hw : w.wroteHeader = false) (hbody : w.body = [])
    (hrej : RESTServer.validateChatCompletionRequest req = some e)
    (prej : GRPCServer.validateChatCompletionRequest preq = some pe) :
    (RESTServer.handleChatCompletion client w (.ok req)).2 = [] ∧
    (RESTServer.handleChatCompletion client w (.ok req)).1.wroteHeader = true ∧
    (RESTServer.handleChatCompletion client w (.ok req)).1.statusCode = 400 ∧
    (RESTServer.handleChatCompletion client w (.ok req)).1.body =
      [Payload.error { Error := "Invalid request", Message := e, Code := 400 }] ∧
    GRPCServer.ChatCompletion client preq =
      (none, some ("invalid request: " ++ pe), []) := by
  refine ⟨?_, ?_, ?_, ?_, ?_⟩
  · simp [RESTServer.handleChatCompletion, hrej]
  · simp [RESTServer.handleChatCompletion, hrej, RESTServer.writeError,
      ResponseWriter.encode, ResponseWriter.writeHeader, ResponseWriter.setHeader, hw]
  · simp [RESTServer.handleChatCompletion, hrej, RESTServer.writeError,
      ResponseWriter.encode, ResponseWriter.writeHeader, ResponseWriter.setHeader, hw]
  · simp [RESTServer.handleChatCompletion, hrej, RESTServer.writeError,
      ResponseWriter.encode, ResponseWriter.writeHeader, ResponseWriter.setHeader, hw, hbody]
  · simp [GRPCServer.ChatCompletion, prej]

/-- Witness for C10: a request without a model on the REST surface and one with
an empty content on the gRPC surface, with a client that would answer. -/
theorem rejected_request_not_forwarded_witness :
    (RESTServer.handleChatCompletion
        ⟨fun _ => .ok ⟨"id", "chat.completion", 0, "gpt", [], ⟨0, 0, 0⟩⟩, none⟩
        ⟨[("Access-Control-Allow-Origin", "*")], false, 0, [], []⟩
        (.ok ⟨"", [⟨"user", "Hello"⟩], none, none, none, ""⟩)).2 = [] ∧
    (RESTServer.handleChatCompletion
        ⟨fun _ => .ok ⟨"id", "chat.completion", 0, "gpt", [], ⟨0, 0, 0⟩⟩, none⟩
        ⟨[("Access-Control-Allow-Origin", "*")], false, 0, [], []⟩
        (.ok ⟨"", [⟨"user", "Hello"⟩], none, none, none, ""⟩)).1.wroteHeader = true ∧
    (RESTServer.handleChatCompletion
        ⟨fun _ => .ok ⟨"id", "chat.completion", 0, "gpt", [], ⟨0, 0, 0⟩⟩, none⟩
        ⟨[("Access-Control-Allow-Origin", "*")], false, 0, [], []⟩
        (.ok ⟨"", [⟨"user", "Hello"⟩], none, none, none, ""⟩)).1.statusCode = 400 ∧
    (RESTServer.handleChatCompletion
        ⟨fun _ => .ok ⟨"id", "chat.completion", 0, "gpt", [], ⟨0, 0, 0⟩⟩, none⟩
        ⟨[("Access-Control-Allow-Origin", "*")], false, 0, [], []⟩
        (.ok ⟨"", [⟨"user", "Hello"⟩], none, none, none, ""⟩)).1.body =
      [Payload.error { Error := "Invalid request", Message := "model is required", Code := 400 }] ∧
    GRPCServer.ChatCompletion
        ⟨fun _ => .ok ⟨"id", "chat.completion", 0, "gpt", [], ⟨0, 0, 0⟩⟩, none⟩
        ⟨"gpt", [⟨"user", ""⟩], none, none, none, ""⟩ =
      (none, some ("invalid request: " ++ "message 0: content is required"), []) :=
  rejected_request_not_forwarded
    ⟨fun _ => .ok ⟨"id", "chat.completion", 0, "gpt", [], ⟨0, 0, 0⟩⟩, none⟩
    ⟨[("Access-Control-Allow-Origin", "*")], false, 0, [], []⟩
    ⟨"", [⟨"user", "Hello"⟩], none, none, none, ""⟩
    ⟨"gpt", [⟨"user", ""⟩], none, none, none, ""⟩
    "model is required" "message 0: content is required"
    rfl rfl (by decide) (by decide)

/-! ## Forwarding outcomes on both surfaces -/

/-- C11: for a request that validation accepts, on a writer that has not been
written to. When the client fails with error text `e`, REST answers with status
500 and the envelope `Failed to process chat completion`, `e`, 500 and nothing
else in the body, and gRPC returns a nil response and the error text
`failed to process chat completion: ` followed by `e`. When the client returns
a response, REST answers with status 200 and that response, and gRPC returns
the converted response and a nil error. -/
theorem forward_outcome_mapping (client : Client) (w : ResponseWriter)
    (req : models.ChatCompletionRequest) (preq : pb.ChatCompletionRequest)
    (hw : w.wroteHeader = false) (hbody : w.body = [])
    (hv : RESTServer.validateChatCompletionRequest req = none)
    (pv : GRPCServer.validateChatCompletionRequest preq = none) :
    (∀ e : String, client.ChatCompletion req = .error e →
      (RESTServer.handleChatCompletion client w (.ok req)).1.statusCode = 500 ∧
      (RESTServer.handleChatCompletion client w (.ok req)).1.body =
        [Payload.error
          { Error := "Failed to process chat completion", Message := e, Code := 500 }]) ∧
    (∀ resp : models.ChatCompletionResponse, client.ChatCompletion req = .ok resp →
      (RESTServer.handleChatCompletion client w (.ok req)).1.statusCode = 200 ∧
      (RESTServer.handleChatCompletion client w (.ok req)).1.body = [Payload.chat resp]) ∧
    (∀ e : String, client.ChatCompletion (GRPCServer.protoToModel preq) = .error e →
      (GRPCServer.ChatCompletion client preq).1 = none ∧
      (GRPCServer.ChatCompletion client preq).2.1 =
        some ("failed to process chat completion: " ++ e)) ∧
    (∀ resp : models.ChatCompletionResponse,
      client.ChatCompletion (GRPCServer.protoToModel preq) = .ok resp →
      (GRPCServer.ChatCompletion client preq).1 = some (GRPCServer.modelToProto resp) ∧
      (GRPCServer.ChatCompletion client preq).2.1 = none) := by
  refine ⟨?_, ?_, ?_, ?_⟩
  · intro e he
    simp [RESTServer.handleChatCompletion, hv, he, RESTServer.writeError,
      ResponseWriter.encode, ResponseWriter.writeHeader, ResponseWriter.setHeader, hw, hbody]
  · intro resp he
    simp [RESTServer.handleChatCompletion, hv, he,
      ResponseWriter.encode, ResponseWriter.writeHeader, ResponseWriter.setHeader, hw, hbody]
  · intro e he
    simp [GRPCServer.ChatCompletion, pv, he]
  · intro resp he
    simp [GRPCServer.ChatCompletion, pv, he]

/-- Witness for C11: a client that fails with `boom` on every request. -/
theorem forward_outcome_mapping_witness :
    (RESTServer.handleChatCompletion ⟨fun _ => .error "boom", none⟩
        ⟨[], false, 0, [], []⟩
        (.ok ⟨"gpt", [⟨"user", "Hello"⟩], none, none, none, ""⟩)).1.statusCode = 500 ∧
    (RESTServer.handleChatCompletion ⟨fun _ => .error "boom", none⟩
        ⟨[], false, 0, [], []⟩
        (.ok ⟨"gpt", [⟨"user", "Hello"⟩], none, none, none, ""⟩)).1.body =
      [Payload.error
        { Error := "Failed to process chat completion", Message := "boom", Code := 500 }] :=
  (forward_outcome_mapping ⟨fun _ => .error "boom", none⟩ ⟨[], false, 0, [], []⟩
    ⟨"gpt", [⟨"user", "Hello"⟩], none, none, none, ""⟩
    ⟨"gpt", [⟨"user", "Hello"⟩], none, none, none, ""⟩
    rfl rfl (by decide) (by decide)).1 "boom" rfl

/-! ## Health reporting -/

/-- C12: on a writer that has not been written to, the status code and the
status field of the body written by handleHealth agree with the probe: 200 and
`healthy` when the probe returns no error, 503 and `unhealthy` when it returns
one, the status code being 200 exactly when the body says `healthy`; the version
is `1.0.0` in both cases. -/
theorem health_status_agrees (client : Client) (w : ResponseWriter) (now : Nat)
    (hw : w.wroteHeader = false) (hbody : w.body = []) :
    ∃ r : models.HealthResponse,
      (RESTServer.handleHealth client w now).body = [Payload.health r] ∧
      r.Version = "1.0.0" ∧
      (client.HealthCheck = none →
        (RESTServer.handleHealth client w now).statusCode = 200 ∧ r.Status = "healthy") ∧
      (client.HealthCheck ≠ none →
        (RESTServer.handleHealth client w now).statusCode = 503 ∧ r.Status = "unhealthy") ∧
      ((RESTServer.handleHealth client w now).statusCode = 200 ↔ r.Status = "healthy") ∧
      ((RESTServer.handleHealth client w now).statusCode = 503 ↔ r.Status = "unhealthy") := by
  cases hc : client.HealthCheck with
  | none =>
    refine ⟨{ Status := "healthy", Version := "1.0.0", Time := now }, ?_, rfl, ?_, ?_, ?_, ?_⟩
    · simp [RESTServer.handleHealth, hc, ResponseWriter.encode, ResponseWriter.writeHeader,
        ResponseWriter.setHeader, hw, hbody]
    · intro _
      simp [RESTServer.handleHealth, hc, ResponseWriter.encode, ResponseWriter.writeHeader,
        ResponseWriter.setHeader, hw]
    · intro h; exact absurd rfl h
    · simp [RESTServer.handleHealth, hc, ResponseWriter.encode, ResponseWriter.writeHeader,
        ResponseWriter.setHeader, hw]
    · simp [RESTServer.handleHealth, hc, ResponseWriter.encode, ResponseWriter.writeHeader,
        ResponseWriter.setHeader, hw]
  | some e =>
    refine ⟨{ Status := "unhealthy", Version := "1.0.0", Time := now }, ?_, rfl, ?_, ?_, ?_, ?_⟩
    · simp [RESTServer.handleHealth, hc, ResponseWriter.encode, ResponseWriter.writeHeader,
        ResponseWriter.setHeader, hw, hbody]
    · intro h; cases h
    · intro _
      simp [RESTServer.handleHealth, hc, ResponseWriter.encode, ResponseWriter.writeHeader,
        ResponseWriter.setHeader, hw]
    · simp [RESTServer.handleHealth, hc, ResponseWriter.encode, ResponseWriter.writeHeader,
        ResponseWriter.setHeader, hw]
    · simp [RESTServer.handleHealth, hc, ResponseWriter.encode, ResponseWriter.writeHeader,
        ResponseWriter.setHeader, hw]

/-- Witness for C12: a probe that timed out. -/
theorem health_status_agrees_witness :
    ∃ r : models.HealthResponse,
      (RESTServer.handleHealth ⟨fun _ => .error "down", some "context deadline exceeded"⟩
        ⟨[], false, 0, [], []⟩ 7).body = [Payload.health r] ∧
      r.Version = "1.0.0" ∧
      ((some "context deadline exceeded" : Option String) = none →
        (RESTServer.handleHealth ⟨fun _ => .error "down", some "context deadline exceeded"⟩
          ⟨[], false, 0, [], []⟩ 7).statusCode = 200 ∧ r.Status = "healthy") ∧
      ((some "context deadline exceeded" : Option String) ≠ none →
        (RESTServer.handleHealth ⟨fun _ => .error "down", some "context deadline exceeded"⟩
          ⟨[], false, 0, [], []⟩ 7).statusCode = 503 ∧ r.Status = "unhealthy") ∧
      ((RESTServer.handleHealth ⟨fun _ => .error "down", some "context deadline exceeded"⟩
          ⟨[], false, 0, [], []⟩ 7).statusCode = 200 ↔ r.Status = "healthy") ∧
      ((RESTServer.handleHealth ⟨fun _ => .error "down", some "context deadline exceeded"⟩
          ⟨[], false, 0, [], []⟩ 7).statusCode = 503 ↔ r.Status = "unhealthy") :=
  health_status_agrees ⟨fun _ => .error "down", some "context deadline exceeded"⟩
    ⟨[], false, 0, [], []⟩ 7 rfl rfl

/-- C13: gRPC HealthCheck returns a nil error and a response with version
`1.0.0` whose status is `healthy` exactly when the probe returned no error and
`unhealthy` otherwise; the REST health handler, on a writer that has not been
written to, puts the same status string in its body. -/
theorem grpc_health_never_fails (client : Client) (w : ResponseWriter) (now : Nat)
    (hbody : w.body = []) :
    (GRPCServer.HealthCheck client).2 = none ∧
    ∃ r : pb.HealthCheckResponse,
      (GRPCServer.HealthCheck client).1 = some r ∧
      r.Version = "1.0.0" ∧
      (r.Status = "healthy" ↔ client.HealthCheck = none) ∧
      (r.Status = "unhealthy" ↔ client.HealthCheck ≠ none) ∧
      (RESTServer.handleHealth client w now).body =
        [Payload.health { Status := r.Status, Version := "1.0.0", Time := now }] := by
  refine ⟨rfl, ?_⟩
  cases hc : client.HealthCheck with
  | none =>
    refine ⟨{ Status := "healthy", Version := "1.0.0" }, ?_, rfl, ?_, ?_, ?_⟩
    · simp [GRPCServer.HealthCheck, hc]
    · simp
    · simp
    · simp [RESTServer.handleHealth, hc, ResponseWriter.encode, ResponseWriter.writeHeader,
        ResponseWriter.setHeader, hbody]
      split <;> simp [hbody]
  | some e =>
    refine ⟨{ Status := "unhealthy", Version := "1.0.0" }, ?_, rfl, ?_, ?_, ?_⟩
    · simp [GRPCServer.HealthCheck, hc]
    · simp
    · simp
    · simp [RESTServer.handleHealth, hc, ResponseWriter.encode, ResponseWriter.writeHeader,
        ResponseWriter.setHeader, hbody]
      split <;> simp [hbody]

/-- Witness for C13: a failing probe. -/
theorem grpc_health_never_fails_witness :
    (GRPCServer.HealthCheck ⟨fun _ => .error "down", some "refused"⟩).2 = none ∧
    ∃ r : pb.HealthCheckResponse,
      (GRPCServer.HealthCheck ⟨fun _ => .error "down", some "refused"⟩).1 = some r ∧
      r.Version = "1.0.0" ∧
      (r.Status = "healthy" ↔ (some "refused" : Option String) = none) ∧
      (r.Status = "unhealthy" ↔ (some "refused" : Option String) ≠ none) ∧
      (RESTServer.handleHealth ⟨fun _ => .error "down", some "refused"⟩
          ⟨[], false, 0, [], []⟩ 7).body =
        [Payload.health { Status := r.Status, Version := "1.0.0", Time := 7 }] :=
  grpc_health_never_fails ⟨fun _ => .error "down", some "refused"⟩
    ⟨[], false, 0, [], []⟩ 7 rfl

/-! ## Conversions between the protocol-native and the canonical shapes -/

/-- C14: protoToModel is faithful field for field: model and persona prompt are
the input ones, the messages have the same length and, position by position, the
same roles and contents, and temperature, max tokens and stream are present
exactly when they are present in the input, with the same value, so that a
present zero stays distinct from an absent field. -/
theorem protoToModel_faithful (req : pb.ChatCompletionRequest) :
    (GRPCServer.protoToModel req).Model = req.Model ∧
    (GRPCServer.protoToModel req).PersonaPrompt = req.PersonaPrompt ∧
    (GRPCServer.protoToModel req).Messages.length = req.Messages.length ∧
    (∀ i : Nat,
      ((GRPCServer.protoToModel req).Messages[i]?).map (fun m => (m.Role, m.Content)) =
        (req.Messages[i]?).map (fun m => (m.Role, m.Content))) ∧
    (GRPCServer.protoToModel req).Temperature = req.Temperature ∧
    (GRPCServer.protoToModel req).MaxTokens = req.MaxTokens ∧
    (GRPCServer.protoToModel req).Stream = req.Stream ∧
    ((GRPCServer.protoToModel req).Temperature.isSome = req.Temperature.isSome ∧
      (GRPCServer.protoToModel req).MaxTokens.isSome = req.MaxTokens.isSome ∧
      (GRPCServer.protoToModel req).Stream.isSome = req.Stream.isSome) ∧
    (req.Temperature = some 0 → (GRPCServer.protoToModel req).Temperature ≠ none) ∧
    (req.MaxTokens = some 0 → (GRPCServer.protoToModel req).MaxTokens ≠ none) ∧
    (req.Stream = some false → (GRPCServer.protoToModel req).Stream ≠ none) := by
  have ht : (GRPCServer.protoToModel req).Temperature = req.Temperature := by
    simp only [GRPCServer.protoToModel]; cases req.Temperature <;> rfl
  have hm : (GRPCServer.protoToModel req).MaxTokens = req.MaxTokens := by
    simp only [GRPCServer.protoToModel]; cases req.MaxTokens <;> rfl
  have hs : (GRPCServer.protoToModel req).Stream = req.Stream := by
    simp only [GRPCServer.protoToModel]; cases req.Stream <;> rfl
  refine ⟨rfl, rfl, by simp [GRPCServer.protoToModel], ?_, ht, hm, hs,
    ⟨by rw [ht], by rw [hm], by rw [hs]⟩, ?_, ?_, ?_⟩
  · intro i
    simp only [GRPCServer.protoToModel, List.getElem?_map]
    cases req.Messages[i]? <;> rfl
  · intro h; rw [ht, h]; exact Option.some_ne_none _
  · intro h; rw [hm, h]; exact Option.some_ne_none _
  · intro h; rw [hs, h]; exact Option.some_ne_none _

/-- The conversion `int32(x)` keeps a value of the 32-bit signed range. -/
theorem int32_of_range (x : Int) (hlo : -2147483648 ≤ x) (hhi : x < 2147483648) :
    int32 x = x := by
  unfold int32
  rw [Int.emod_eq_of_lt (by omega) (by omega)]
  omega

/-- C15 as stated fails: a canonical response whose prompt token count is 2^31,
a value a Go `int` of 64 bits holds, is converted to a gRPC response whose
prompt token count is -2^31. -/
theorem modelToProto_truncates_usage :
    (GRPCServer.modelToProto
        ⟨"id", "chat.completion", 0, "gpt", [], ⟨2147483648, 1, 2147483649⟩⟩).Usage.PromptTokens =
      -2147483648 ∧
    (GRPCServer.modelToProto
        ⟨"id", "chat.completion", 0, "gpt", [], ⟨2147483648, 1, 2147483649⟩⟩).Usage.PromptTokens ≠
      (⟨"id", "chat.completion", 0, "gpt", [], ⟨2147483648, 1, 2147483649⟩⟩ :
        models.ChatCompletionResponse).Usage.PromptTokens := by
  decide

/-- C15, amended: for every canonical response modelToProto yields a response
with the same id, object, created and model and with choices of the same length
and order whose message role, message content and finish reason are the
canonical ones. The index of each choice and each of the three usage counters
is the canonical value converted by `int32`, and so, value by value, equal to
the canonical value whenever that value lies in the 32-bit signed range. -/
theorem modelToProto_faithful_in_range (resp : models.ChatCompletionResponse) :
    (GRPCServer.modelToProto resp).Id = resp.ID ∧
    (GRPCServer.modelToProto resp).Object = resp.Object ∧
    (GRPCServer.modelToProto resp).Created = resp.Created ∧
    (GRPCServer.modelToProto resp).Model = resp.Model ∧
    (GRPCServer.modelToProto resp).Choices.length = resp.Choices.length ∧
    (∀ (i : Nat) (c : models.Choice), resp.Choices[i]? = some c →
      ∃ pc : pb.Choice, (GRPCServer.modelToProto resp).Choices[i]? = some pc ∧
        pc.Message.Role = c.Message.Role ∧
        pc.Message.Content = c.Message.Content ∧
        pc.FinishReason = c.FinishReason ∧
        pc.Index = int32 c.Index ∧
        (-2147483648 ≤ c.Index → c.Index < 2147483648 → pc.Index = c.Index)) ∧
    ((GRPCServer.modelToProto resp).Usage.PromptTokens = int32 resp.Usage.PromptTokens ∧
      (-2147483648 ≤ resp.Usage.PromptTokens → resp.Usage.PromptTokens < 2147483648 →
        (GRPCServer.modelToProto resp).Usage.PromptTokens = resp.Usage.PromptTokens)) ∧
    ((GRPCServer.modelToProto resp).Usage.CompletionTokens =
        int32 resp.Usage.CompletionTokens ∧
      (-2147483648 ≤ resp.Usage.CompletionTokens →
        resp.Usage.CompletionTokens < 2147483648 →
        (GRPCServer.modelToProto resp).Usage.CompletionTokens =
          resp.Usage.CompletionTokens)) ∧
    ((GRPCServer.modelToProto resp).Usage.TotalTokens = int32 resp.Usage.TotalTokens ∧
      (-2147483648 ≤ resp.Usage.TotalTokens → resp.Usage.TotalTokens < 2147483648 →
        (GRPCServer.modelToProto resp).Usage.TotalTokens = resp.Usage.TotalTokens)) := by
  refine ⟨rfl, rfl, rfl, rfl, by simp [GRPCServer.modelToProto], ?_,
    ⟨rfl, fun hlo hhi => int32_of_range _ hlo hhi⟩,
    ⟨rfl, fun hlo hhi => int32_of_range _ hlo hhi⟩,
    ⟨rfl, fun hlo hhi => int32_of_range _ hlo hhi⟩⟩
  intro i c hget
  refine ⟨{ Index := int32 c.Index,
            Message := { Role := c.Message.Role, Content := c.Message.Content },
            FinishReason := c.FinishReason }, ?_, rfl, rfl, rfl, rfl,
    fun hlo hhi => int32_of_range _ hlo hhi⟩
  simp only [GRPCServer.modelToProto, List.getElem?_map, hget]
  rfl

/-- Witness for C15, amended: the prompt and total counters are out of range,
the completion counter and the index of the choice are in range and are kept. -/
theorem modelToProto_faithful_in_range_witness :
    (GRPCServer.modelToProto
        ⟨"id", "chat.completion", 1700000000, "gpt",
          [⟨0, ⟨"assistant", "Hello"⟩, "stop"⟩], ⟨2147483648, 1, 2147483649⟩⟩).Id = "id" ∧
    (GRPCServer.modelToProto
        ⟨"id", "chat.completion", 1700000000, "gpt",
          [⟨0, ⟨"assistant", "Hello"⟩, "stop"⟩],
          ⟨2147483648, 1, 2147483649⟩⟩).Usage.CompletionTokens = 1 ∧
    ∃ pc : pb.Choice,
      (GRPCServer.modelToProto
        ⟨"id", "chat.completion", 1700000000, "gpt",
          [⟨0, ⟨"assistant", "Hello"⟩, "stop"⟩], ⟨2147483648, 1, 2147483649⟩⟩).Choices[0]? =
        some pc ∧
      pc.Message.Content = "Hello" ∧ pc.Index = 0 :=
  ⟨(modelToProto_faithful_in_range
      ⟨"id", "chat.completion", 1700000000, "gpt",
        [⟨0, ⟨"assistant", "Hello"⟩, "stop"⟩], ⟨2147483648, 1, 2147483649⟩⟩).1,
    (modelToProto_faithful_in_range
      ⟨"id", "chat.completion", 1700000000, "gpt",
        [⟨0, ⟨"assistant", "Hello"⟩, "stop"⟩], ⟨2147483648, 1, 2147483649⟩⟩).2.2.2.2.2.2.2.1.2
      (by decide) (by decide),
    match (modelToProto_faithful_in_range
      ⟨"id", "chat.completion", 1700000000, "gpt",
        [⟨0, ⟨"assistant", "Hello"⟩, "stop"⟩], ⟨2147483648, 1, 2147483649⟩⟩).2.2.2.2.2.1
      0 ⟨0, ⟨"assistant", "Hello"⟩, "stop"⟩ rfl with
    | ⟨pc, hget, _, hcontent, _, _, hindex⟩ =>
      ⟨pc, hget, hcontent, hindex (by decide) (by decide)⟩⟩

/-! ## The upstream call -/

/-- The persona merge keeps the temperature. -/
theorem OpenWebUIClient.prepare_temperature (req : models.ChatCompletionRequest) :
    (OpenWebUIClient.prepareOpenWebUIRequest req).Temperature = req.Temperature := by
  by_cases hp : req.PersonaPrompt = ""
  · rw [OpenWebUIClient.prepare_of_empty_persona req hp]
  · by_cases hf : (OpenWebUIClient.mergeSystemMessage req.PersonaPrompt req.Messages).2 = true
    · simp [OpenWebUIClient.prepareOpenWebUIRequest, hp, hf]
    · simp [OpenWebUIClient.prepareOpenWebUIRequest, hp, hf]

/-- A request whose temperature is absent or finite has a JSON form. -/
theorem jsonMarshal_ok (req : models.ChatCompletionRequest)
    (hfin : ∀ bits : Nat, req.Temperature = some bits → float64IsNaNOrInf bits = false) :
    jsonMarshal req = .ok req := by
  unfold jsonMarshal
  cases ht : req.Temperature with
  | none => rfl
  | some bits => simp [hfin bits ht]

/-- Whenever ChatCompletion returns an error it returns a nil response. -/
theorem OpenWebUIClient.chatCompletion_nil_on_error (c : OpenWebUIClient) (env : HTTP)
    (req : models.ChatCompletionRequest) :
    (c.ChatCompletion env req).2 ≠ none → (c.ChatCompletion env req).1 = none := by
  simp only [OpenWebUIClient.ChatCompletion]
  cases hm : jsonMarshal (OpenWebUIClient.prepareOpenWebUIRequest req) with
  | error err => simp
  | ok reqBody =>
    cases hc : env.newRequestError (c.baseURL ++ "/api/chat/completions") with
    | some err => simp
    | none =>
      cases hr : env.roundTrip (c.chatRequest reqBody) with
      | sendError err => simp [hr]
      | readError st err => simp [hr]
      | received st body =>
        by_cases hst : st = 200
        · cases hu : env.unmarshal body with
          | error err => simp [hr, hst, hu]
          | ok resp => simp [hr, hst, hu]
        · simp [hr, hst]

/-- C16 as stated fails: the request carries a temperature that is a NaN (as a
gRPC caller can send it); the transport would succeed with status 200 and a body
that parses, and yet ChatCompletion returns a nil response and the error of
`json.Marshal`, which is none of the three kinds of the claim. -/
theorem chatCompletion_marshal_failure :
    (∀ r : HTTPRequest,
      (⟨fun _ => none, fun _ => Exchange.received 200 "body",
        fun _ => .ok ⟨"id", "chat.completion", 0, "gpt", [], ⟨1, 1, 2⟩⟩⟩ : HTTP).roundTrip r =
        Exchange.received 200 "body") ∧
    (⟨fun _ => none, fun _ => Exchange.received 200 "body",
        fun _ => .ok ⟨"id", "chat.completion", 0, "gpt", [], ⟨1, 1, 2⟩⟩⟩ : HTTP).unmarshal "body" =
      .ok ⟨"id", "chat.completion", 0, "gpt", [], ⟨1, 1, 2⟩⟩ ∧
    OpenWebUIClient.ChatCompletion ⟨"http://localhost:3000", ""⟩
        ⟨fun _ => none, fun _ => Exchange.received 200 "body",
          fun _ => .ok ⟨"id", "chat.completion", 0, "gpt", [], ⟨1, 1, 2⟩⟩⟩
        ⟨"gpt", [⟨"user", "Hello"⟩], some 9221120237041090560, none, none, ""⟩ =
      (none, some "failed to marshal request: json: unsupported value: NaN") := by
  refine ⟨fun _ => rfl, rfl, ?_⟩
  decide

/-- ChatCompletion returns either a response and a nil error or a nil response
and an error, never both and never neither. -/
theorem OpenWebUIClient.chatCompletion_shape (c : OpenWebUIClient) (env : HTTP)
    (req : models.ChatCompletionRequest) :
    (∃ resp, c.ChatCompletion env req = (some resp, none)) ∨
      ∃ e, c.ChatCompletion env req = (none, some e) := by
  simp only [OpenWebUIClient.ChatCompletion]
  cases hm : jsonMarshal (OpenWebUIClient.prepareOpenWebUIRequest req) with
  | error err => simp
  | ok reqBody =>
    cases hc : env.newRequestError (c.baseURL ++ "/api/chat/completions") with
    | some err => simp
    | none =>
      cases hr : env.roundTrip (c.chatRequest reqBody) with
      | sendError err => simp [hr]
      | readError st err => simp [hr]
      | received st body =>
        by_cases hst : st = 200
        · cases hu : env.unmarshal body with
          | error err => simp [hr, hst, hu]
          | ok resp => simp [hr, hst, hu]
        · simp [hr, hst]

/-- A temperature that is a NaN or an infinity makes ChatCompletion fail with
the marshalling error, whatever the HTTP layer would do. -/
theorem OpenWebUIClient.chatCompletion_marshal_error (c : OpenWebUIClient) (env : HTTP)
    (req : models.ChatCompletionRequest) (bits : Nat)
    (ht : req.Temperature = some bits) (hbad : float64IsNaNOrInf bits = true) :
    c.ChatCompletion env req =
      (none, some ("failed to marshal request: " ++
        ("json: unsupported value: " ++ formatNaNOrInf bits))) := by
  have hprep : (OpenWebUIClient.prepareOpenWebUIRequest req).Temperature = some bits := by
    rw [OpenWebUIClient.prepare_temperature, ht]
  have hm : jsonMarshal (OpenWebUIClient.prepareOpenWebUIRequest req) =
      .error ("json: unsupported value: " ++ formatNaNOrInf bits) := by
    simp [jsonMarshal, hprep, hbad]
  simp [OpenWebUIClient.ChatCompletion, hm]

/-- C16, amended: for every request, client and HTTP layer, ChatCompletion
returns either a response with a nil error or a nil response with an error, so
that on every failure, those of marshalling and request creation included, the
response is nil. A request whose temperature is a NaN or an infinity fails with
the error of `json.Marshal`, and a request that marshals fails with the error of
request creation when the HTTP request cannot be created, in both cases
whatever the round trip would deliver. For a request that `json.Marshal` accepts
(its temperature is absent or finite) and a URL for which the HTTP request is
created, ChatCompletion returns a response exactly when the round trip delivers
status 200 and a body that parses, and then it returns the parsed response; it
fails with the send error when sending fails, with the read error when reading
the body fails, with an error that carries the status code and the body when the
status is not 200, whether or not the body parses, and with the decoder's error
when the status is 200 and the body does not parse. -/
theorem chatCompletion_outcomes (c : OpenWebUIClient) (env : HTTP)
    (req : models.ChatCompletionRequest) :
    ((c.ChatCompletion env req).2 ≠ none → (c.ChatCompletion env req).1 = none) ∧
    ((c.ChatCompletion env req).1 ≠ none → (c.ChatCompletion env req).2 = none) ∧
    ((c.ChatCompletion env req).1 = none → (c.ChatCompletion env req).2 ≠ none) ∧
    (∀ bits : Nat, req.Temperature = some bits → float64IsNaNOrInf bits = true →
      c.ChatCompletion env req =
        (none, some ("failed to marshal request: " ++
          ("json: unsupported value: " ++ formatNaNOrInf bits)))) ∧
    ((∀ bits : Nat, req.Temperature = some bits → float64IsNaNOrInf bits = false) →
      ∀ err, env.newRequestError (c.baseURL ++ "/api/chat/completions") = some err →
      c.ChatCompletion env req = (none, some ("failed to create HTTP request: " ++ err))) ∧
    ((∀ bits : Nat, req.Temperature = some bits → float64IsNaNOrInf bits = false) →
      env.newRequestError (c.baseURL ++ "/api/chat/completions") = none →
      ((∃ resp, c.ChatCompletion env req = (some resp, none)) ↔
        ∃ body resp,
          env.roundTrip (c.chatRequest (OpenWebUIClient.prepareOpenWebUIRequest req)) =
            Exchange.received 200 body ∧
          env.unmarshal body = .ok resp) ∧
      (∀ body resp,
        env.roundTrip (c.chatRequest (OpenWebUIClient.prepareOpenWebUIRequest req)) =
          Exchange.received 200 body →
        env.unmarshal body = .ok resp →
        c.ChatCompletion env req = (some resp, none)) ∧
      (∀ err,
        env.roundTrip (c.chatRequest (OpenWebUIClient.prepareOpenWebUIRequest req)) =
          Exchange.sendError err →
        c.ChatCompletion env req = (none, some ("failed to send request: " ++ err))) ∧
      (∀ st err,
        env.roundTrip (c.chatRequest (OpenWebUIClient.prepareOpenWebUIRequest req)) =
          Exchange.readError st err →
        c.ChatCompletion env req = (none, some ("failed to read response body: " ++ err))) ∧
      (∀ st body,
        env.roundTrip (c.chatRequest (OpenWebUIClient.prepareOpenWebUIRequest req)) =
          Exchange.received st body →
        st ≠ 200 →
        c.ChatCompletion env req =
          (none, some ("OpenWebUI API returned status " ++ toString st ++ ": " ++ body))) ∧
      (∀ body err,
        env.roundTrip (c.chatRequest (OpenWebUIClient.prepareOpenWebUIRequest req)) =
          Exchange.received 200 body →
        env.unmarshal body = .error err →
        c.ChatCompletion env req =
          (none, some ("failed to unmarshal response: " ++ err)))) := by
  have hshape := OpenWebUIClient.chatCompletion_shape c env req
  refine ⟨OpenWebUIClient.chatCompletion_nil_on_error c env req, ?_, ?_,
    fun bits ht hbad => OpenWebUIClient.chatCompletion_marshal_error c env req bits ht hbad,
    ?_, ?_⟩
  · rcases hshape with ⟨resp, h⟩ | ⟨e, h⟩
    · intro _; rw [h]
    · intro hne; rw [h] at hne; exact absurd rfl hne
  · rcases hshape with ⟨resp, h⟩ | ⟨e, h⟩
    · intro hnone; rw [h] at hnone; cases hnone
    · intro _; rw [h]; exact Option.some_ne_none _
  · intro hfin err hcreate
    have hm : jsonMarshal (OpenWebUIClient.prepareOpenWebUIRequest req) =
        .ok (OpenWebUIClient.prepareOpenWebUIRequest req) :=
      jsonMarshal_ok _ (by rw [OpenWebUIClient.prepare_temperature]; exact hfin)
    simp [OpenWebUIClient.ChatCompletion, hm, hcreate]
  · intro hfin hcreate
    have hm : jsonMarshal (OpenWebUIClient.prepareOpenWebUIRequest req) =
        .ok (OpenWebUIClient.prepareOpenWebUIRequest req) :=
      jsonMarshal_ok _ (by rw [OpenWebUIClient.prepare_temperature]; exact hfin)
    have hok : ∀ body resp,
        env.roundTrip (c.chatRequest (OpenWebUIClient.prepareOpenWebUIRequest req)) =
          Exchange.received 200 body →
        env.unmarshal body = .ok resp →
        c.ChatCompletion env req = (some resp, none) := by
      intro body resp hr hu
      simp [OpenWebUIClient.ChatCompletion, hm, hcreate, hr, hu]
    refine ⟨⟨?_, ?_⟩, hok, ?_, ?_, ?_, ?_⟩
    · rintro ⟨resp, hres⟩
      simp only [OpenWebUIClient.ChatCompletion, hm, hcreate] at hres
      cases hr : env.roundTrip
          (c.chatRequest (OpenWebUIClient.prepareOpenWebUIRequest req)) with
      | sendError err => rw [hr] at hres; simp at hres
      | readError st err => rw [hr] at hres; simp at hres
      | received st body =>
        rw [hr] at hres
        by_cases hst : st = 200
        · subst hst
          cases hu : env.unmarshal body with
          | error err => simp [hu] at hres
          | ok r => exact ⟨body, r, rfl, hu⟩
        · simp [hst] at hres
    · rintro ⟨body, resp, hr, hu⟩
      exact ⟨resp, hok body resp hr hu⟩
    · intro err hr
      simp [OpenWebUIClient.ChatCompletion, hm, hcreate, hr]
    · intro st err hr
      simp [OpenWebUIClient.ChatCompletion, hm, hcreate, hr]
    · intro st body hr hst
      simp [OpenWebUIClient.ChatCompletion, hm, hcreate, hr, hst]
    · intro body err hr hu
      simp [OpenWebUIClient.ChatCompletion, hm, hcreate, hr, hu]

/-- Witness for C16, amended: the upstream answers 500 with a body that would
parse and the client reports the status and the body; with an infinite
temperature the same client fails before any round trip, with a nil response. -/
theorem chatCompletion_outcomes_witness :
    OpenWebUIClient.ChatCompletion ⟨"http://localhost:3000", "key"⟩
        ⟨fun _ => none, fun _ => Exchange.received 500 "oops",
          fun _ => .ok ⟨"id", "chat.completion", 0, "gpt", [], ⟨1, 1, 2⟩⟩⟩
        ⟨"gpt", [⟨"user", "Hello"⟩], some 0, none, none, "Persona"⟩ =
      (none, some ("OpenWebUI API returned status " ++ toString 500 ++ ": " ++ "oops")) ∧
    OpenWebUIClient.ChatCompletion ⟨"http://localhost:3000", "key"⟩
        ⟨fun _ => none, fun _ => Exchange.received 200 "body",
          fun _ => .ok ⟨"id", "chat.completion", 0, "gpt", [], ⟨1, 1, 2⟩⟩⟩
        ⟨"gpt", [⟨"user", "Hello"⟩], some 9218868437227405312, none, none, ""⟩ =
      (none, some ("failed to marshal request: " ++
        ("json: unsupported value: " ++ formatNaNOrInf 9218868437227405312))) :=
  ⟨(chatCompletion_outcomes ⟨"http://localhost:3000", "key"⟩
      ⟨fun _ => none, fun _ => Exchange.received 500 "oops",
        fun _ => .ok ⟨"id", "chat.completion", 0, "gpt", [], ⟨1, 1, 2⟩⟩⟩
      ⟨"gpt", [⟨"user", "Hello"⟩], some 0, none, none, "Persona"⟩).2.2.2.2.2
      (fun bits hb => by
        simp only [Option.some.injEq] at hb
        subst hb
        decide)
      rfl |>.2.2.2.2.1 500 "oops" rfl (by decide),
    (chatCompletion_outcomes ⟨"http://localhost:3000", "key"⟩
      ⟨fun _ => none, fun _ => Exchange.received 200 "body",
        fun _ => .ok ⟨"id", "chat.completion", 0, "gpt", [], ⟨1, 1, 2⟩⟩⟩
      ⟨"gpt", [⟨"user", "Hello"⟩], some 9218868437227405312, none, none, ""⟩).2.2.2.1
      9218868437227405312 rfl (by decide)⟩

/-! ## Second merge, roles and error texts -/

/-- The persona prompt of a prepared request is empty. -/
theorem OpenWebUIClient.prepare_persona_empty (req : models.ChatCompletionRequest) :
    (OpenWebUIClient.prepareOpenWebUIRequest req).PersonaPrompt = "" := by
  simp [OpenWebUIClient.prepareOpenWebUIRequest]

/-- C17: running prepareOpenWebUIRequest on its own output gives that output
again: the messages are unchanged by the second call and the persona text is
not folded in a second time. -/
theorem prepare_twice (req : models.ChatCompletionRequest) :
    OpenWebUIClient.prepareOpenWebUIRequest (OpenWebUIClient.prepareOpenWebUIRequest req) =
      OpenWebUIClient.prepareOpenWebUIRequest req ∧
    (OpenWebUIClient.prepareOpenWebUIRequest
        (OpenWebUIClient.prepareOpenWebUIRequest req)).Messages =
      (OpenWebUIClient.prepareOpenWebUIRequest req).Messages := by
  have h := OpenWebUIClient.prepare_of_empty_persona
    (OpenWebUIClient.prepareOpenWebUIRequest req)
    (OpenWebUIClient.prepare_persona_empty req)
  exact ⟨h, by rw [h]⟩

/-- C18 as stated fails: a request whose only message has the role `tool` is
accepted on both surfaces, and `tool` is none of `system`, `user`,
`assistant`. -/
theorem validate_accepts_other_role :
    RESTServer.validateChatCompletionRequest
        ⟨"gpt", [⟨"tool", "42"⟩], none, none, none, ""⟩ = none ∧
    GRPCServer.validateChatCompletionRequest
        ⟨"gpt", [⟨"tool", "42"⟩], none, none, none, ""⟩ = none ∧
    ¬ ("tool" = "system" ∨ "tool" = "user" ∨ "tool" = "assistant") := by
  decide

/-- C18, amended: every message of every request that
validateChatCompletionRequest accepts, on either surface, has a role that is
not empty (and a content that is not empty); the role is not confined to
`system`, `user` and `assistant`. -/
theorem accepted_roles_nonempty (req : models.ChatCompletionRequest)
    (preq : pb.ChatCompletionRequest)
    (hv : RESTServer.validateChatCompletionRequest req = none)
    (pv : GRPCServer.validateChatCompletionRequest preq = none) :
    (∀ m ∈ req.Messages, m.Role ≠ "" ∧ m.Content ≠ "") ∧
    (∀ m ∈ preq.Messages, m.Role ≠ "" ∧ m.Content ≠ "") := by
  refine ⟨((RESTServer.validate_eq_none req).mp hv).2.2, ?_⟩
  rw [GRPCServer.validate_eq_rest] at pv
  have h := ((RESTServer.validate_eq_none _).mp pv).2.2
  intro m hm
  exact h ⟨m.Role, m.Content⟩ (by
    simp only [GRPCServer.protoToModel, List.mem_map]
    exact ⟨m, hm, rfl⟩)

/-- Witness for C18, amended: an accepted request with a `tool` message. -/
theorem accepted_roles_nonempty_witness :
    (∀ m ∈ ([⟨"tool", "42"⟩, ⟨"user", "Hi"⟩] : List models.ChatMessage),
      m.Role ≠ "" ∧ m.Content ≠ "") ∧
    (∀ m ∈ ([⟨"assistant", "Hello"⟩] : List pb.ChatMessage),
      m.Role ≠ "" ∧ m.Content ≠ "") :=
  accepted_roles_nonempty
    ⟨"gpt", [⟨"tool", "42"⟩, ⟨"user", "Hi"⟩], none, none, none, ""⟩
    ⟨"gpt", [⟨"assistant", "Hello"⟩], none, none, none, ""⟩
    (by decide) (by decide)

/-- The text of the validation error, by cases: the model, then the message
sequence, then the first message with an empty field. -/
theorem RESTServer.validate_text (req : models.ChatCompletionRequest) :
    (req.Model = "" →
      RESTServer.validateChatCompletionRequest req = some "model is required") ∧
    (req.Model ≠ "" → req.Messages = [] →
      RESTServer.validateChatCompletionRequest req = some "messages are required") ∧
    (req.Model ≠ "" → ∀ (i : Nat) (m : models.ChatMessage),
      req.Messages[i]? = some m → (m.Role = "" ∨ m.Content = "") →
      (∀ (j : Nat) (m' : models.ChatMessage),
        j < i → req.Messages[j]? = some m' → m'.Role ≠ "" ∧ m'.Content ≠ "") →
      RESTServer.validateChatCompletionRequest req =
        some (if m.Role = "" then "message " ++ toString i ++ ": role is required"
          else "message " ++ toString i ++ ": content is required")) := by
  refine ⟨?_, ?_, ?_⟩
  · intro h
    simp [RESTServer.validateChatCompletionRequest, h]
  · intro h1 h2
    simp [RESTServer.validateChatCompletionRequest, h1, h2]
  · intro h1 i m hget hb hfirst
    have hmem : m ∈ req.Messages := List.getElem?_mem hget
    have hne : req.Messages.length ≠ 0 := by
      intro h0
      rw [List.length_eq_zero.mp h0] at hmem
      simp at hmem
    obtain ⟨i', m', hget', hb', hbefore', hres⟩ :=
      RESTServer.validateMessages_first 0 req.Messages ⟨m, hmem, hb⟩
    have hii : i' = i := by
      rcases Nat.lt_trichotomy i' i with h | h | h
      · have := hfirst i' m' h hget'
        tauto
      · exact h
      · have := hbefore' i m h hget
        tauto
    subst hii
    rw [hget] at hget'
    cases hget'
    simp only [RESTServer.validateChatCompletionRequest, h1, hne, if_false]
    simpa using hres

/-- C19 as stated fails: for a request with an empty model the error text is
`model is required`, not `model required`; for one without messages it is
`messages are required`, not `messages required`; for a first message with an
empty role it is `message 0: role is required`, not
`message[0]: role required`. -/
theorem validate_text_differs :
    RESTServer.validateChatCompletionRequest
        ⟨"", [⟨"user", "Hello"⟩], none, none, none, ""⟩ = some "model is required" ∧
    RESTServer.validateChatCompletionRequest
        ⟨"", [⟨"user", "Hello"⟩], none, none, none, ""⟩ ≠ some "model required" ∧
    RESTServer.validateChatCompletionRequest
        ⟨"gpt", [], none, none, none, ""⟩ ≠ some "messages required" ∧
    RESTServer.validateChatCompletionRequest
        ⟨"gpt", [⟨"", "Hello"⟩], none, none, none, ""⟩ ≠ some "message[0]: role required" ∧
    GRPCServer.validateChatCompletionRequest
        ⟨"", [⟨"user", "Hello"⟩], none, none, none, ""⟩ ≠ some "model required" := by
  decide

/-- C19, amended: on both surfaces the validation error text is
`model is required` for a request with an empty model, `messages are required`
for a request with a model and no message, and, when the first message with an
empty field is at index `i`, `message i: role is required` if its role is empty
and `message i: content is required` otherwise, with `i` in decimal. -/
theorem validate_error_text (req : models.ChatCompletionRequest)
    (preq : pb.ChatCompletionRequest) :
    ((req.Model = "" →
        RESTServer.validateChatCompletionRequest req = some "model is required") ∧
      (req.Model ≠ "" → req.Messages = [] →
        RESTServer.validateChatCompletionRequest req = some "messages are required") ∧
      (req.Model ≠ "" → ∀ (i : Nat) (m : models.ChatMessage),
        req.Messages[i]? = some m → (m.Role = "" ∨ m.Content = "") →
        (∀ (j : Nat) (m' : models.ChatMessage),
          j < i → req.Messages[j]? = some m' → m'.Role ≠ "" ∧ m'.Content ≠ "") →
        RESTServer.validateChatCompletionRequest req =
          some (if m.Role = "" then "message " ++ toString i ++ ": role is required"
            else "message " ++ toString i ++ ": content is required"))) ∧
    ((preq.Model = "" →
        GRPCServer.validateChatCompletionRequest preq = some "model is required") ∧
      (preq.Model ≠ "" → preq.Messages = [] →
        GRPCServer.validateChatCompletionRequest preq = some "messages are required") ∧
      (preq.Model ≠ "" → ∀ (i : Nat) (m : pb.ChatMessage),
        preq.Messages[i]? = some m → (m.Role = "" ∨ m.Content = "") →
        (∀ (j : Nat) (m' : pb.ChatMessage),
          j < i → preq.Messages[j]? = some m' → m'.Role ≠ "" ∧ m'.Content ≠ "") →
        GRPCServer.validateChatCompletionRequest preq =
          some (if m.Role = "" then "message " ++ toString i ++ ": role is required"
            else "message " ++ toString i ++ ": content is required"))) := by
  refine ⟨RESTServer.validate_text req, ?_⟩
  have h := RESTServer.validate_text (GRPCServer.protoToModel preq)
  rw [← GRPCServer.validate_eq_rest] at h
  refine ⟨fun hm => h.1 hm, fun hm hl => h.2.1 hm (by simp [GRPCServer.protoToModel, hl]), ?_⟩
  intro hm i m hget hb hfirst
  have := h.2.2 hm i ⟨m.Role, m.Content⟩
    (by simp only [GRPCServer.protoToModel, List.getElem?_map, hget]; rfl) hb
    (fun j m' hj hjget => by
      simp only [GRPCServer.protoToModel, List.getElem?_map, Option.map_eq_some'] at hjget
      obtain ⟨pm, hpget, hpm⟩ := hjget
      have := hfirst j pm hj hpget
      rw [← hpm]
      exact this)
  exact this

/-- Witness for C19, amended: the role of the second message is the first empty
field. -/
theorem validate_error_text_witness :
    RESTServer.validateChatCompletionRequest
        ⟨"gpt", [⟨"user", "Hello"⟩, ⟨"", "x"⟩], none, none, none, ""⟩ =
      some (if (⟨"", "x"⟩ : models.ChatMessage).Role = ""
        then "message " ++ toString 1 ++ ": role is required"
        else "message " ++ toString 1 ++ ": content is required") :=
  (validate_error_text
    ⟨"gpt", [⟨"user", "Hello"⟩, ⟨"", "x"⟩], none, none, none, ""⟩
    ⟨"gpt", [], none, none, none, ""⟩).1.2.2 (by decide) 1 ⟨"", "x"⟩ (by decide) (by decide)
    (fun j m' hj hget => by
      have hj0 : j = 0 := by omega
      subst hj0
      simp only [List.getElem?_cons_zero, Option.some.injEq] at hget
      subst hget
      decide)

/-! ## The Content-Type header of REST responses -/

/-- On a writer that has not been written to, writeError sends the header
`Content-Type: application/json` with the status line. -/
theorem RESTServer.writeError_content_type (w : ResponseWriter) (statusCode : Nat)
    (message : String) (err : Option String) (hw : w.wroteHeader = false) :
    ("Content-Type", "application/json") ∈
      (RESTServer.writeError w statusCode message err).sentHeader := by
  simp [RESTServer.writeError, ResponseWriter.encode, ResponseWriter.writeHeader,
    ResponseWriter.setHeader, hw]

/-- On a writer that has not been written to, every response of
handleChatCompletion is sent with `Content-Type: application/json`. -/
theorem RESTServer.handleChatCompletion_content_type (client : Client) (w : ResponseWriter)
    (body : Except String models.ChatCompletionRequest) (hw : w.wroteHeader = false) :
    ("Content-Type", "application/json") ∈
      (RESTServer.handleChatCompletion client w body).1.sentHeader := by
  cases body with
  | error err =>
    simp only [RESTServer.handleChatCompletion]
    exact RESTServer.writeError_content_type w 400 _ _ hw
  | ok req =>
    cases hv : RESTServer.validateChatCompletionRequest req with
    | some e =>
      simp only [RESTServer.handleChatCompletion, hv]
      exact RESTServer.writeError_content_type w 400 _ _ hw
    | none =>
      cases hc : client.ChatCompletion req with
      | error e =>
        simp only [RESTServer.handleChatCompletion, hv, hc]
        exact RESTServer.writeError_content_type w 500 _ _ hw
      | ok resp =>
        simp [RESTServer.handleChatCompletion, hv, hc, ResponseWriter.encode,
          ResponseWriter.writeHeader, ResponseWriter.setHeader, hw]

/-- On a writer that has not been written to, handleHealth sends the headers
the writer held on entry: the `Content-Type` it sets comes after the status
line and only reaches the header map. -/
theorem RESTServer.handleHealth_sent_header (client : Client) (w : ResponseWriter) (now : Nat)
    (hw : w.wroteHeader = false) :
    (RESTServer.handleHealth client w now).sentHeader = w.header ∧
    ("Content-Type", "application/json") ∈ (RESTServer.handleHealth client w now).header := by
  cases hc : client.HealthCheck with
  | none =>
    simp [RESTServer.handleHealth, hc, ResponseWriter.encode, ResponseWriter.writeHeader,
      ResponseWriter.setHeader, hw]
  | some e =>
    simp [RESTServer.handleHealth, hc, ResponseWriter.encode, ResponseWriter.writeHeader,
      ResponseWriter.setHeader, hw]

/-- C20 (the code at the failing input): handleHealth runs on a writer that
holds the CORS header only, with a healthy and with a failing probe. The headers
sent with the status line are that CORS header alone; `Content-Type` is in the
header map after the handler but was set too late to be sent. -/
theorem handleHealth_omits_content_type :
    (RESTServer.handleHealth ⟨fun _ => .error "unused", none⟩
        ⟨[("Access-Control-Allow-Origin", "*")], false, 0, [], []⟩ 0).statusCode = 200 ∧
    (RESTServer.handleHealth ⟨fun _ => .error "unused", none⟩
        ⟨[("Access-Control-Allow-Origin", "*")], false, 0, [], []⟩ 0).sentHeader =
      [("Access-Control-Allow-Origin", "*")] ∧
    (RESTServer.handleHealth ⟨fun _ => .error "unused", none⟩
        ⟨[("Access-Control-Allow-Origin", "*")], false, 0, [], []⟩ 0).header =
      [("Access-Control-Allow-Origin", "*"), ("Content-Type", "application/json")] ∧
    (RESTServer.handleHealth ⟨fun _ => .error "unused", some "refused"⟩
        ⟨[("Access-Control-Allow-Origin", "*")], false, 0, [], []⟩ 0).statusCode = 503 ∧
    (RESTServer.handleHealth ⟨fun _ => .error "unused", some "refused"⟩
        ⟨[("Access-Control-Allow-Origin", "*")], false, 0, [], []⟩ 0).sentHeader =
      [("Access-Control-Allow-Origin", "*")] ∧
    (RESTServer.writeError ⟨[("Access-Control-Allow-Origin", "*")], false, 0, [], []⟩
        400 "Invalid request" (some "model is required")).sentHeader =
      [("Access-Control-Allow-Origin", "*"), ("Content-Type", "application/json")] := by
  decide

/-! ## Loading the configuration -/

/-- With none of the seven variables set the environment changes nothing. -/
theorem config.applyEnvironment_unset (sys : config.Machine) (c : config.Config)
    (h1 : sys.getenv "HTTP_PORT" = "") (h2 : sys.getenv "GRPC_PORT" = "")
    (h3 : sys.getenv "HOST" = "") (h4 : sys.getenv "OPENWEBUI_BASE_URL" = "")
    (h5 : sys.getenv "OPENWEBUI_API_KEY" = "") (h6 : sys.getenv "OPENWEBUI_TIMEOUT" = "")
    (h7 : sys.getenv "LOG_LEVEL" = "") :
    config.applyEnvironment sys c = c := by
  simp [config.applyEnvironment, h1, h2, h3, h4, h5, h6, h7]

/-- For the empty path LoadConfig returns the defaults with the environment
applied, and no error. -/
theorem config.LoadConfig_empty_path (sys : config.Machine) :
    config.LoadConfig sys "" = (some (config.applyEnvironment sys config.defaults), none) := by
  simp [config.LoadConfig]

/-- For a non-empty path for which `os.Stat` returns an error, LoadConfig skips
the file and returns the defaults with the environment applied, and a nil
error. -/
theorem config.LoadConfig_missing_file (sys : config.Machine) (configPath e : String)
    (hpath : configPath ≠ "") (hstat : sys.statError configPath = some e) :
    config.LoadConfig sys configPath =
      (some (config.applyEnvironment sys config.defaults), none) := by
  simp [config.LoadConfig, hpath, hstat]

/-- For a file that is there, LoadConfig returns an error exactly when reading
or parsing fails. -/
theorem config.LoadConfig_existing_file (sys : config.Machine) (configPath : String)
    (hpath : configPath ≠ "") (hstat : sys.statError configPath = none) :
    (∀ err, sys.readFile configPath = .error err →
      config.LoadConfig sys configPath =
        (none, some ("failed to read config file: " ++ err))) ∧
    (∀ data err, sys.readFile configPath = .ok data →
      sys.yamlUnmarshal data config.defaults = .error err →
      config.LoadConfig sys configPath =
        (none, some ("failed to parse config file: " ++ err))) ∧
    (∀ data c, sys.readFile configPath = .ok data →
      sys.yamlUnmarshal data config.defaults = .ok c →
      config.LoadConfig sys configPath = (some (config.applyEnvironment sys c), none)) := by
  refine ⟨?_, ?_, ?_⟩
  · intro err hr
    simp [config.LoadConfig, hpath, hstat, hr]
  · intro data err hr hy
    simp [config.LoadConfig, hpath, hstat, hr, hy]
  · intro data c hr hy
    simp [config.LoadConfig, hpath, hstat, hr, hy]

/-- C21 (the code at the failing input): on a machine without any file and
without environment variables, LoadConfig called with the path of the test
`TestLoadConfig_NonExistentFile` returns the default configuration and a nil
error, where the test expects an error. For the empty path it returns the
defaults HTTP port 8080, gRPC port 9090, host `0.0.0.0`, base URL
`http://localhost:3000` and timeout 30. -/
theorem loadConfig_missing_file_no_error :
    (⟨fun _ => some "no such file or directory",
        fun _ => .error "no such file or directory", fun _ => "",
        fun _ c => .ok c, fun _ => none⟩ : config.Machine).statError
        "/non/existent/path/config.yaml" ≠ none ∧
    config.LoadConfig
        ⟨fun _ => some "no such file or directory",
          fun _ => .error "no such file or directory", fun _ => "",
          fun _ c => .ok c, fun _ => none⟩
        "/non/existent/path/config.yaml" =
      (some
        { Server := { HTTPPort := 8080, GRPCPort := 9090, Host := "0.0.0.0" },
          OpenWebUI := { BaseURL := "http://localhost:3000", APIKey := "", Timeout := 30 },
          Logging := { Level := "info", Format := "json" } },
        none) ∧
    config.LoadConfig
        ⟨fun _ => some "no such file or directory",
          fun _ => .error "no such file or directory", fun _ => "",
          fun _ c => .ok c, fun _ => none⟩
        "" =
      (some
        { Server := { HTTPPort := 8080, GRPCPort := 9090, Host := "0.0.0.0" },
          OpenWebUI := { BaseURL := "http://localhost:3000", APIKey := "", Timeout := 30 },
          Logging := { Level := "info", Format := "json" } },
        none) := by
  decide
